import Mathlib

/-!
Shallow embedding of the foxblat plugin manager
(src/foxblat/plugin_manager.py) and proofs about it.

The Python source is translated definition by definition:

* PluginMatcher.matches        -> PluginMatcher.matches
* PluginManager._load_plugin   -> loadPlugin
* PluginManager._discover_plugins -> discoverPlugins
* PluginManager._device_scan_loop -> scanIteration / scanLoop
* PluginManager._handle_device_connected -> handleDeviceConnected
* PluginManager._handle_device_disconnected -> handleDeviceDisconnected
* PluginManager._instantiate_plugin_panel -> instantiatePanel
* PluginManager.get_plugin_panels -> getPluginPanels
* PluginManager.get_plugin_preset_settings -> getPluginPresetSettings
* PluginManager.apply_plugin_preset_settings -> applyPluginPresetSettings
* PluginManager.stop -> stopManager

Python exceptions raised by plugin-supplied code are modelled by an
environment of Boolean oracles (PanelEnv); an uncaught exception makes an
operation return Except.error (), while caught exceptions are absorbed
exactly where the source has a try/except block.
-/

set_option autoImplicit false

namespace Foxblat

/-- The fields of an evdev.InputDevice that plugin_manager.py reads:
device.name, device.info.vendor, device.info.product, device.path. -/
structure InputDevice where
  name : String
  vendor : Nat
  product : Nat
  path : String
deriving Repr, DecidableEq

/-- Modelled from the spec: PluginDeviceInfo comes from foxblat.plugin_base,
which is not among the provided sources; section 3 ("Device Descriptor")
gives its fields: human-readable name, vendor id, product id, stable path. -/
structure PluginDeviceInfo where
  name : String
  vendor_id : Nat
  product_id : Nat
  path : String
deriving Repr, DecidableEq

/-- A JSON value appearing as a rule's vendor_id or product_id field:
either an integer or a (hexadecimal) string. -/
inductive VidValue where
  | int (n : Nat)
  | str (s : String)
deriving Repr, DecidableEq

/-- One entry of the metadata "devices" list: each field optional. -/
structure MatchRule where
  vendor_id : Option VidValue
  product_id : Option VidValue
  name_pattern : Option String
deriving Repr, DecidableEq

/-- Value of one hexadecimal digit, or none. -/
def hexDigitVal (c : Char) : Option Nat :=
  if '0' ≤ c ∧ c ≤ '9' then some (c.toNat - '0'.toNat)
  else if 'a' ≤ c ∧ c ≤ 'f' then some (c.toNat - 'a'.toNat + 10)
  else if 'A' ≤ c ∧ c ≤ 'F' then some (c.toNat - 'A'.toNat + 10)
  else none

/-- Accumulating hexadecimal evaluation of a digit list. -/
def hexDigitsVal : List Char → Nat → Option Nat
  | [], acc => some acc
  | c :: cs, acc =>
    match hexDigitVal c with
    | some v => hexDigitsVal cs (acc * 16 + v)
    | none => none

/-- Model of Python int(s, 16) as used on rule values: an optional 0x/0X
prefix followed by a nonempty run of hexadecimal digits; none models the
ValueError raised on anything else.  (Python also accepts signs,
surrounding whitespace and digit-group underscores; those forms do not
occur in the metadata shapes this development reasons about.) -/
def int16 (s : String) : Option Nat :=
  let cs := s.data
  let body :=
    match cs with
    | '0' :: x :: rest => if x = 'x' ∨ x = 'X' then rest else cs
    | _ => cs
  if body = [] then none else hexDigitsVal body 0

/-- Line 30/31 of plugin_manager.py:
int(vid, 16) if isinstance(vid, str) else vid. -/
def vidToInt : VidValue → Option Nat
  | .int n => some n
  | .str s => int16 s

/-- PluginMatcher.matches, lines 21-40.  The parameter search models the
external call re.search(pattern, device.name, re.IGNORECASE) is not None.
The result some b is the returned Boolean; none models the ValueError
propagating out of int(vid, 16) on a malformed rule value. -/
def matchesFrom (search : String → String → Bool) (device : InputDevice) :
    List MatchRule → Option Bool
  | [] => some false
  | rule :: rest =>
    let patternStep : Option Bool :=
      match rule.name_pattern with
      | some pattern =>
        if search pattern device.name then some true
        else matchesFrom search device rest
      | none => matchesFrom search device rest
    match rule.vendor_id, rule.product_id with
    | some vid, some pid =>
      match vidToInt vid, vidToInt pid with
      | some vidInt, some pidInt =>
        if device.vendor = vidInt ∧ device.product = pidInt then some true
        else patternStep
      | _, _ => none
    | _, _ => patternStep

/-- Entry point mirroring PluginMatcher.matches(self, device). -/
def PluginMatcher.matches (search : String → String → Bool)
    (rules : List MatchRule) (device : InputDevice) : Option Bool :=
  matchesFrom search device rules

/-- Boolean prefix test on character lists. -/
def isPref : List Char → List Char → Bool
  | [], _ => true
  | _ :: _, [] => false
  | a :: as, b :: bs => a = b && isPref as bs

/-- Boolean contiguous-substring test: does needle occur anywhere in hay? -/
def listSub (needle : List Char) : List Char → Bool
  | [] => isPref needle []
  | c :: t => isPref needle (c :: t) || listSub needle t

/-- ASCII lowercase mapping of one character (the folding re.IGNORECASE
applies to the name strings at hand). -/
def charLower (c : Char) : Char :=
  if 'A' ≤ c ∧ c ≤ 'Z' then Char.ofNat (c.toNat + 32) else c

/-- Model of re.search(pattern, hay, re.IGNORECASE) is not None for
regular expressions without metacharacters (literal patterns), where the
search is exactly a case-insensitive substring search. -/
def reSearchIC (pattern hay : String) : Bool :=
  listSub (pattern.data.map charLower) (hay.data.map charLower)

theorem isPref_iff (n : List Char) : ∀ h : List Char,
    isPref n h = true ↔ ∃ post, h = n ++ post := by
  induction n with
  | nil =>
    intro h
    simp [isPref]
  | cons a as ih =>
    intro h
    cases h with
    | nil =>
      simp [isPref]
    | cons b bs =>
      simp only [isPref, Bool.and_eq_true, decide_eq_true_eq, ih bs]
      constructor
      · rintro ⟨rfl, post, rfl⟩
        exact ⟨post, rfl⟩
      · rintro ⟨post, hpost⟩
        cases hpost
        exact ⟨rfl, post, rfl⟩

theorem listSub_iff (n : List Char) : ∀ h : List Char,
    listSub n h = true ↔ ∃ pre post, h = pre ++ n ++ post := by
  intro h
  induction h with
  | nil =>
    simp only [listSub, isPref_iff]
    constructor
    · rintro ⟨post, hpost⟩
      exact ⟨[], post, hpost⟩
    · rintro ⟨pre, post, hpost⟩
      rcases pre with _ | ⟨x, xs⟩
      · exact ⟨post, hpost⟩
      · simp at hpost
    | cons c t ih =>
      simp only [listSub, Bool.or_eq_true, isPref_iff, ih]
      constructor
      · rintro (⟨post, hpost⟩ | ⟨pre, post, hpost⟩)
        · exact ⟨[], post, by simpa using hpost⟩
        · exact ⟨c :: pre, post, by simp [hpost]⟩
      · rintro ⟨pre, post, hpost⟩
        rcases pre with _ | ⟨x, xs⟩
        · exact Or.inl ⟨post, by simpa using hpost⟩
        · right
          refine ⟨xs, post, ?_⟩
          have := hpost
          simp only [List.cons_append] at this
          cases this
          rfl

/-! ## Plugin loading (_load_plugin, _discover_plugins) -/

/-- Outcome of resolving one attribute of the dynamically loaded module
(hasattr/getattr on lines 163/168): the attribute is absent, is a class
(which may or may not have PluginPanel among its bases), or is some
non-class object. -/
inductive ModuleAttr where
  | absent
  | cls (extendsPluginPanel : Bool)
  | nonClass
deriving Repr, DecidableEq

/-- Presence and content of the metadata fields _load_plugin consults:
the required fields name, panel_class, devices (line 141) and the
optional panel_title (lines 294/334). -/
structure PluginMetadata where
  name : Option String
  panel_class : Option String
  panel_title : Option String
  devices : Option (List MatchRule)
deriving Repr, DecidableEq

/-- One candidate bundle as _load_plugin observes it: the directory entry
name and the outcomes of the filesystem and dynamic-loading probes. -/
structure Bundle where
  name : String
  hasMetadataFile : Bool
  hasInitFile : Bool
  metadataJson : Option PluginMetadata
  moduleLoadRaises : Bool
  attr : String → ModuleAttr

/-- One registry entry (class LoadedPlugin, lines 43-54), with the panel
instance represented by a numeric identity. -/
structure LoadedPlugin where
  name : String
  panel_title : Option String
  rules : List MatchRule
  connected_devices : List PluginDeviceInfo
  panel_instance : Option Nat
deriving Repr, DecidableEq

/-- What _load_plugin does with one bundle when it does not raise:
either registers a record (returns True) or dispatches a
plugin-load-error event and returns False. -/
inductive LoadOutcome where
  | loaded (p : LoadedPlugin)
  | loadErr (msg : String)
deriving Repr, DecidableEq

/-- PluginManager._load_plugin, lines 115-190.  Except.error () models a
Python exception escaping the method: the only site that can raise
outside a try block is issubclass(panel_class, PluginPanel) on line 171,
which raises TypeError when the resolved attribute is not a class. -/
def loadPlugin (b : Bundle) : Except Unit LoadOutcome :=
  if b.hasMetadataFile = false then .ok (.loadErr "Missing plugin.json")
  else if b.hasInitFile = false then .ok (.loadErr "Missing __init__.py")
  else
    match b.metadataJson with
    | none => .ok (.loadErr "Invalid plugin.json")
    | some md =>
      match md.name, md.panel_class, md.devices with
      | none, _, _ => .ok (.loadErr "Missing required field: name")
      | some _, none, _ => .ok (.loadErr "Missing required field: panel_class")
      | some _, some _, none => .ok (.loadErr "Missing required field: devices")
      | some _, some panelClassName, some rules =>
        if b.moduleLoadRaises then .ok (.loadErr "Failed to load module")
        else
          match b.attr panelClassName with
          | .absent => .ok (.loadErr ("Panel class not found: " ++ panelClassName))
          | .nonClass => .error ()
          | .cls ext =>
            if ext = false then .ok (.loadErr "Panel class must extend PluginPanel")
            else .ok (.loaded
              { name := b.name
                panel_title := md.panel_title
                rules := rules
                connected_devices := []
                panel_instance := none })

/-- Python dict assignment self._plugins[name] = record: replace in place
if the key exists, append otherwise. -/
def upsertPlugin (ps : List LoadedPlugin) (p : LoadedPlugin) : List LoadedPlugin :=
  if ps.any (fun q => q.name = p.name) then
    ps.map (fun q => if q.name = p.name then p else q)
  else ps ++ [p]

/-- PluginManager._discover_plugins, lines 105-113: fold _load_plugin over
the subdirectories, accumulating the registry and the dispatched
plugin-load-error events (name, message). -/
def discoverPlugins : List Bundle → List LoadedPlugin → List (String × String) →
    Except Unit (List LoadedPlugin × List (String × String))
  | [], ps, errs => .ok (ps, errs)
  | b :: bs, ps, errs =>
    match loadPlugin b with
    | .error e => .error e
    | .ok (.loaded p) => discoverPlugins bs (upsertPlugin ps p) errs
    | .ok (.loadErr msg) => discoverPlugins bs ps (errs ++ [(b.name, msg)])

/-! ## Panel environment, trace events, manager state -/

/-- Behaviour of plugin-supplied code: for each panel identity, whether a
given call raises, and the panel's preset_device_name attribute. -/
structure PanelEnv where
  constructRaises : Nat → Bool
  activeRaises : Nat → Int → Bool
  onConnectRaises : Nat → PluginDeviceInfo → Bool
  onDisconnectRaises : Nat → PluginDeviceInfo → Bool
  shutdownRaises : Nat → Bool
  getPresetRaises : Nat → Bool
  onPresetLoadedRaises : Nat → Bool
  presetName : Nat → String

/-- The environment in which no plugin call ever raises. -/
def PanelEnv.ok (env : PanelEnv) : Prop :=
  (∀ p, env.constructRaises p = false) ∧
  (∀ p s, env.activeRaises p s = false) ∧
  (∀ p d, env.onConnectRaises p d = false) ∧
  (∀ p d, env.onDisconnectRaises p d = false) ∧
  (∀ p, env.shutdownRaises p = false) ∧
  (∀ p, env.getPresetRaises p = false) ∧
  (∀ p, env.onPresetLoadedRaises p = false)

/-- A concrete environment of well-behaved plugin code. -/
def quietEnv : PanelEnv where
  constructRaises := fun _ => false
  activeRaises := fun _ _ => false
  onConnectRaises := fun _ _ => false
  onDisconnectRaises := fun _ _ => false
  shutdownRaises := fun _ => false
  getPresetRaises := fun _ => false
  onPresetLoadedRaises := fun _ => false
  presetName := fun p => "panel" ++ toString p

theorem quietEnv_ok : quietEnv.ok :=
  ⟨fun _ => rfl, fun _ _ => rfl, fun _ _ => rfl, fun _ _ => rfl,
   fun _ => rfl, fun _ => rfl, fun _ => rfl⟩

/-- Observable actions of a manager operation: manager events dispatched
to the host and calls made into plugin panels (including calls whose
exception was then caught). -/
inductive Ev where
  | panelAvailable (pluginName : String) (panel : Nat)
  | loadErrorEv (pluginName : String) (msg : String)
  | construct (panel : Nat) (pluginName : String) (title : String)
  | callActive (panel : Nat) (sig : Int)
  | callOnConnect (panel : Nat) (d : PluginDeviceInfo)
  | callOnDisconnect (panel : Nat) (d : PluginDeviceInfo)
  | callShutdown (panel : Nat)
  | callGetPreset (panel : Nat)
  | callOnPresetLoaded (panel : Nat)
deriving Repr, DecidableEq

/-- Mutable manager state: the registry (dict values in insertion order),
whether self._button_callback is set, a fresh-identity counter for panel
instances, and the running flag. -/
structure ManagerState where
  plugins : List LoadedPlugin
  buttonCallback : Bool
  nextPanel : Nat
  running : Bool
deriving Repr, DecidableEq

/-- PluginDeviceInfo built on lines 240-245 from the evdev device. -/
def deviceInfoOf (device : InputDevice) : PluginDeviceInfo :=
  { name := device.name
    vendor_id := device.vendor
    product_id := device.product
    path := device.path }

/-! ## _instantiate_plugin_panel (lines 284-317) -/

/-- PluginManager._instantiate_plugin_panel.  The whole body is inside
try/except, so the function is total; a raise after the assignment on
line 295 leaves panel_instance set but skips the plugin-panel-available
dispatch, reaching the except branch that dispatches plugin-load-error.
Per-device on_device_connected raises (lines 305-308) are caught by the
inner try and the loop continues.  Returns the updated record, the next
fresh panel identity, and the emitted trace. -/
def instantiatePanel (env : PanelEnv) (n : Nat) (p : LoadedPlugin) :
    LoadedPlugin × Nat × List Ev :=
  if env.constructRaises n then
    (p, n, [.loadErrorEv p.name "Failed to instantiate panel"])
  else if env.activeRaises n (-2) then
    ({ p with panel_instance := some n }, n + 1,
      .construct n p.name (p.panel_title.getD p.name) ::
      .callActive n (-2) ::
      [.loadErrorEv p.name "Failed to instantiate panel"])
  else if p.connected_devices.length > 0 then
    if env.activeRaises n 1 then
      ({ p with panel_instance := some n }, n + 1,
        .construct n p.name (p.panel_title.getD p.name) ::
        .callActive n (-2) ::
        (p.connected_devices.map (fun d => Ev.callOnConnect n d) ++
          [.callActive n 1, .loadErrorEv p.name "Failed to instantiate panel"]))
    else
      ({ p with panel_instance := some n }, n + 1,
        .construct n p.name (p.panel_title.getD p.name) ::
        .callActive n (-2) ::
        (p.connected_devices.map (fun d => Ev.callOnConnect n d) ++
          [.callActive n 1, .panelAvailable p.name n]))
  else
    ({ p with panel_instance := some n }, n + 1,
      .construct n p.name (p.panel_title.getD p.name) ::
      .callActive n (-2) ::
      (p.connected_devices.map (fun d => Ev.callOnConnect n d) ++
        [.panelAvailable p.name n]))

/-! ## _handle_device_connected (lines 235-262) -/

/-- The body of the per-plugin loop of _handle_device_connected for one
record.  none from the matcher (malformed rule value) is not caught, so
it becomes Except.error.  When a panel already exists and was not just
created, on_device_connected and active(1) run inside one try: a raise
in on_device_connected skips active(1) and is caught. -/
def connectPlugin (search : String → String → Bool) (env : PanelEnv)
    (cb : Bool) (device : InputDevice) (nextPanel : Nat) (p : LoadedPlugin) :
    Except Unit (LoadedPlugin × Nat × List Ev) :=
  match PluginMatcher.matches search p.rules device with
  | none => .error ()
  | some false => .ok (p, nextPanel, [])
  | some true =>
    let dinfo := deviceInfoOf device
    let p1 := { p with connected_devices := p.connected_devices ++ [dinfo] }
    if p1.panel_instance = none ∧ cb = true then
      .ok (instantiatePanel env nextPanel p1)
    else
      match p1.panel_instance with
      | some pid =>
        if env.onConnectRaises pid dinfo then
          .ok (p1, nextPanel, [.callOnConnect pid dinfo])
        else
          .ok (p1, nextPanel, [.callOnConnect pid dinfo, .callActive pid 1])
      | none => .ok (p1, nextPanel, [])

/-- The loop of _handle_device_connected over the registry, threading the
fresh-identity counter and keeping each record's event segment. -/
def connectGo (search : String → String → Bool) (env : PanelEnv)
    (cb : Bool) (device : InputDevice) :
    List LoadedPlugin → Nat → Except Unit (List (LoadedPlugin × List Ev) × Nat)
  | [], n => .ok ([], n)
  | p :: ps, n =>
    match connectPlugin search env cb device n p with
    | .error e => .error e
    | .ok (p', n', evs) =>
      match connectGo search env cb device ps n' with
      | .error e => .error e
      | .ok (qs, n'') => .ok ((p', evs) :: qs, n'')

/-- PluginManager._handle_device_connected. -/
def handleDeviceConnected (search : String → String → Bool) (env : PanelEnv)
    (st : ManagerState) (device : InputDevice) :
    Except Unit (ManagerState × List Ev) :=
  match connectGo search env st.buttonCallback device st.plugins st.nextPanel with
  | .error e => .error e
  | .ok (qs, n') =>
    .ok ({ st with plugins := qs.map Prod.fst, nextPanel := n' },
         (qs.map Prod.snd).flatten)

/-! ## _handle_device_disconnected (lines 264-282) -/

/-- The inner loop of _handle_device_disconnected for one record: iterate
over the snapshot plugin.connected_devices[:], removing each entry whose
path matches from the live list (list.remove = erase first equal
element).  on_device_disconnected runs in a try (raises caught); the
active(-1) call on line 282, reached when the live list became empty, is
NOT inside a try, so a raise there is Except.error. -/
def disconnectDevices (env : PanelEnv) (path : String) (panel : Option Nat) :
    List PluginDeviceInfo → List PluginDeviceInfo →
    Except Unit (List PluginDeviceInfo × List Ev)
  | [], cur => .ok (cur, [])
  | d :: ds, cur =>
    if d.path = path then
      let cur' := cur.erase d
      match panel with
      | none =>
        match disconnectDevices env path panel ds cur' with
        | .error e => .error e
        | .ok (fin, evs) => .ok (fin, evs)
      | some pid =>
        if cur'.length = 0 then
          if env.activeRaises pid (-1) then .error ()
          else
            match disconnectDevices env path panel ds cur' with
            | .error e => .error e
            | .ok (fin, evs) =>
              .ok (fin, .callOnDisconnect pid d :: .callActive pid (-1) :: evs)
        else
          match disconnectDevices env path panel ds cur' with
          | .error e => .error e
          | .ok (fin, evs) => .ok (fin, .callOnDisconnect pid d :: evs)
    else
      match disconnectDevices env path panel ds cur with
      | .error e => .error e
      | .ok (fin, evs) => .ok (fin, evs)

/-- The per-plugin body of _handle_device_disconnected. -/
def disconnectPlugin (env : PanelEnv) (path : String) (p : LoadedPlugin) :
    Except Unit (LoadedPlugin × List Ev) :=
  match disconnectDevices env path p.panel_instance
      p.connected_devices p.connected_devices with
  | .error e => .error e
  | .ok (fin, evs) => .ok ({ p with connected_devices := fin }, evs)

/-- The loop of _handle_device_disconnected over the registry. -/
def disconnectGo (env : PanelEnv) (path : String) :
    List LoadedPlugin → Except Unit (List (LoadedPlugin × List Ev))
  | [] => .ok []
  | p :: ps =>
    match disconnectPlugin env path p with
    | .error e => .error e
    | .ok (p', evs) =>
      match disconnectGo env path ps with
      | .error e => .error e
      | .ok qs => .ok ((p', evs) :: qs)

/-- PluginManager._handle_device_disconnected. -/
def handleDeviceDisconnected (env : PanelEnv) (st : ManagerState)
    (path : String) : Except Unit (ManagerState × List Ev) :=
  match disconnectGo env path st.plugins with
  | .error e => .error e
  | .ok qs => .ok ({ st with plugins := qs.map Prod.fst }, (qs.map Prod.snd).flatten)

/-! ## get_plugin_panels (lines 319-337) -/

/-- Python dict assignment panels[title] = panel. -/
def upsertPanel (m : List (String × Nat)) (k : String) (v : Nat) :
    List (String × Nat) :=
  if m.any (fun e => e.1 = k) then
    m.map (fun e => if e.1 = k then (k, v) else e)
  else m ++ [(k, v)]

/-- The per-plugin body of the get_plugin_panels loop: record after
possible instantiation, next counter, events, and the dict entry added
(if any). -/
def panelsPlugin (env : PanelEnv) (n : Nat) (p : LoadedPlugin) :
    LoadedPlugin × Nat × List Ev × Option (String × Nat) :=
  if p.connected_devices.length > 0 then
    let r := if p.panel_instance = none then instantiatePanel env n p else (p, n, [])
    match r with
    | (p', n', evs) =>
      match p'.panel_instance with
      | some pid => (p', n', evs, some (p'.panel_title.getD p'.name, pid))
      | none => (p', n', evs, none)
  else (p, n, [], none)

/-- The loop of get_plugin_panels over the registry. -/
def panelsGo (env : PanelEnv) :
    List LoadedPlugin → Nat → List (LoadedPlugin × List Ev × Option (String × Nat)) × Nat
  | [], n => ([], n)
  | p :: ps, n =>
    match panelsPlugin env n p with
    | (p', n', evs, entry) =>
      match panelsGo env ps n' with
      | (qs, n'') => ((p', evs, entry) :: qs, n'')

/-- PluginManager.get_plugin_panels: sets the button callback, lazily
instantiates panels for records with connected devices, and returns the
title-keyed dict of panels. -/
def getPluginPanels (env : PanelEnv) (st : ManagerState) :
    ManagerState × List Ev × List (String × Nat) :=
  match panelsGo env st.plugins st.nextPanel with
  | (qs, n') =>
    ({ st with plugins := qs.map Prod.fst,
               buttonCallback := true,
               nextPanel := n' },
     (qs.map (fun e => e.2.1)).flatten,
     (qs.map (fun e => e.2.2)).foldl
       (fun m e => match e with
         | some (k, v) => upsertPanel m k v
         | none => m) [])

/-! ## Preset operations and stop (lines 88-98, 353-380) -/

/-- PluginManager.get_plugin_preset_settings, lines 353-363: linear scan;
a raise in get_preset_settings is caught and the scan CONTINUES with the
next record; the result is the identity of the panel whose settings were
returned (settings values themselves are opaque to the manager). -/
def getPresetGo (env : PanelEnv) (deviceName : String) :
    List LoadedPlugin → Option Nat × List Ev
  | [] => (none, [])
  | p :: ps =>
    match p.panel_instance with
    | some pid =>
      if env.presetName pid = deviceName then
        if env.getPresetRaises pid then
          match getPresetGo env deviceName ps with
          | (r, evs) => (r, .callGetPreset pid :: evs)
        else (some pid, [.callGetPreset pid])
      else getPresetGo env deviceName ps
    | none => getPresetGo env deviceName ps

/-- get_plugin_preset_settings threads the manager state through
unchanged (the method only reads it). -/
def getPluginPresetSettings (env : PanelEnv) (st : ManagerState)
    (deviceName : String) : ManagerState × Option Nat × List Ev :=
  (st, getPresetGo env deviceName st.plugins)

/-- PluginManager.apply_plugin_preset_settings, lines 365-380: linear
scan; the first record with a panel whose preset name matches receives
on_preset_loaded (raise caught) and the method returns. -/
def applyPresetGo (env : PanelEnv) (deviceName : String) :
    List LoadedPlugin → List Ev
  | [] => []
  | p :: ps =>
    match p.panel_instance with
    | some pid =>
      if env.presetName pid = deviceName then [.callOnPresetLoaded pid]
      else applyPresetGo env deviceName ps
    | none => applyPresetGo env deviceName ps

/-- State is untouched by apply_plugin_preset_settings. -/
def applyPluginPresetSettings (env : PanelEnv) (st : ManagerState)
    (deviceName : String) : ManagerState × List Ev :=
  (st, applyPresetGo env deviceName st.plugins)

/-- PluginManager.stop, lines 88-98: clear the running flag and call
shutdown on every live panel (raises caught); panel_instance fields are
not cleared. -/
def stopManager (env : PanelEnv) (st : ManagerState) : ManagerState × List Ev :=
  ({ st with running := false },
   st.plugins.filterMap (fun p => p.panel_instance.map Ev.callShutdown))

/-! ## The device scan loop (lines 198-233) -/

/-- Result of one enumeration attempt: the successfully opened devices
(per-device open failures were already skipped silently by the inner
bare except), or a failure of evdev.list_devices itself. -/
inductive EnumResult where
  | ok (devices : List InputDevice)
  | enumError
deriving Repr

/-- Events the loop hands to the connect/disconnect handlers. -/
inductive ScanEvent where
  | connected (d : InputDevice)
  | disconnected (path : String)
deriving Repr, DecidableEq

/-- sleep(3) at the bottom of each successful iteration (line 233). -/
def pollInterval : Nat := 3

/-- sleep(3) in the enumeration-error branch (line 216). -/
def enumErrorBackoff : Nat := 3

/-- The dict current_devices keyed by path (insertion replaces). -/
def devicesByPath (ds : List InputDevice) : List (String × InputDevice) :=
  ds.foldl (fun m d =>
    if m.any (fun e => e.1 = d.path) then
      m.map (fun e => if e.1 = d.path then (d.path, d) else e)
    else m ++ [(d.path, d)]) []

/-- One iteration of the while body of _device_scan_loop: given the known
path set and the enumeration outcome, produce the new known set, the
emitted connect/disconnect events, and the sleep before the next
iteration.  On enumeration error the body logs, sleeps and continues
with the known set unchanged. -/
def scanIteration (known : List String) :
    EnumResult → List String × List ScanEvent × Nat
  | .enumError => (known, [], enumErrorBackoff)
  | .ok devs =>
    let current := devicesByPath devs
    let currentPaths := current.map Prod.fst
    let newPaths := currentPaths.filter (fun p => ¬ known.contains p)
    let removedPaths := known.filter (fun p => ¬ currentPaths.contains p)
    let evs :=
      newPaths.filterMap (fun p =>
        (current.lookup p).map ScanEvent.connected) ++
      removedPaths.map ScanEvent.disconnected
    (currentPaths, evs, pollInterval)

/-- The scan loop run against a schedule of (running-flag, enumeration)
observations: the while condition is checked at the top of each
iteration and the loop body runs only while the flag is set.  Returns
the per-iteration (events, sleep) observations. -/
def scanLoop : List (Bool × EnumResult) → List String →
    List (List ScanEvent × Nat)
  | [], _ => []
  | (running, r) :: rest, known =>
    if running = false then []
    else
      match scanIteration known r with
      | (known', evs, slp) => (evs, slp) :: scanLoop rest known'

/-! ## Claims C3 and C4: the matcher -/

/-- C3: for every rule declaring both a vendor id and a product id (and
only those fields), matches is true via that rule iff both declared
values equal the device's reported ids exactly; a value supplied as an
integer and one supplied as a hexadecimal string denoting the same
number are interchangeable, as 0x046d and 1133 illustrate. -/
theorem C3_vidpid_exact (search : String → String → Bool) (d : InputDevice)
    (v w : VidValue) (vn pn : Nat)
    (hv : vidToInt v = some vn) (hw : vidToInt w = some pn) :
    PluginMatcher.matches search [⟨some v, some w, none⟩] d
      = some (decide (d.vendor = vn ∧ d.product = pn)) ∧
    vidToInt (VidValue.str "0x046d") = vidToInt (VidValue.int 1133) := by
  constructor
  · simp only [PluginMatcher.matches, matchesFrom, hv, hw]
    by_cases h : d.vendor = vn ∧ d.product = pn
    · simp [h]
    · simp [h]
  · decide

theorem C3_vidpid_exact_witness :
    (vidToInt (VidValue.str "0x046d") = some 1133) ∧
    PluginMatcher.matches reSearchIC
      [⟨some (VidValue.str "0x046d"), some (VidValue.int 22136), none⟩]
      ⟨"ACME Wheel", 1133, 22136, "/dev/input/event7"⟩
      = some true := by
  have h := C3_vidpid_exact reSearchIC
    ⟨"ACME Wheel", 1133, 22136, "/dev/input/event7"⟩
    (VidValue.str "0x046d") (VidValue.int 22136) 1133 22136
    (by decide) (by decide)
  exact ⟨by decide, by rw [h.1]; decide⟩

/-- C4: for a rule declaring (only) a name pattern, matches is true via
that rule iff the search primitive finds the pattern in the device name;
with the literal-pattern model of re.search/IGNORECASE this holds iff
the lowercased pattern occurs contiguously anywhere inside the
lowercased device name (an occurrence, not a full match); and a rule
declaring both a VID/PID pair and a pattern matches a device satisfying
either condition alone. -/
theorem C4_pattern_and_union (search : String → String → Bool)
    (d : InputDevice) (pat : String) (v w : VidValue) (vn pn : Nat)
    (hv : vidToInt v = some vn) (hw : vidToInt w = some pn) :
    PluginMatcher.matches search [⟨none, none, some pat⟩] d
      = some (search pat d.name) ∧
    (PluginMatcher.matches reSearchIC [⟨none, none, some pat⟩] d = some true ↔
      ∃ pre post,
        d.name.data.map charLower = pre ++ pat.data.map charLower ++ post) ∧
    PluginMatcher.matches search [⟨some v, some w, some pat⟩] d
      = some (decide (d.vendor = vn ∧ d.product = pn) || search pat d.name) := by
  have hpat : ∀ f : String → String → Bool,
      PluginMatcher.matches f [⟨none, none, some pat⟩] d = some (f pat d.name) := by
    intro f
    simp only [PluginMatcher.matches, matchesFrom]
    by_cases h : f pat d.name
    · simp [h]
    · simp [h]
  refine ⟨hpat search, ?_, ?_⟩
  · rw [hpat reSearchIC]
    simp only [Option.some_inj]
    exact listSub_iff (pat.data.map charLower) (d.name.data.map charLower)
  · simp only [PluginMatcher.matches, matchesFrom, hv, hw]
    by_cases h : d.vendor = vn ∧ d.product = pn
    · simp [h]
    · by_cases hs : search pat d.name
      · simp [h, hs]
      · simp [h, hs]

theorem C4_pattern_and_union_witness :
    PluginMatcher.matches reSearchIC [⟨none, none, some "Wheel"⟩]
      ⟨"Racing WHEEL Pro", 7, 7, "/dev/input/event3"⟩ = some true ∧
    PluginMatcher.matches reSearchIC
      [⟨some (VidValue.int 1), some (VidValue.int 2), some "Wheel"⟩]
      ⟨"Racing WHEEL Pro", 7, 7, "/dev/input/event3"⟩ = some true := by
  have h := C4_pattern_and_union reSearchIC
    ⟨"Racing WHEEL Pro", 7, 7, "/dev/input/event3"⟩ "Wheel"
    (VidValue.int 1) (VidValue.int 2) 1 2 rfl rfl
  refine ⟨?_, ?_⟩
  · rw [h.1]; decide
  · rw [h.2.2]; decide

/-! ## Claims C5 and C9: the loader -/

/-- Does _load_plugin register a record for this bundle? -/
def bundleLoadsOk (b : Bundle) : Bool :=
  match loadPlugin b with
  | .ok (.loaded _) => true
  | _ => false

/-- Does _load_plugin report a load error for this bundle? -/
def bundleLoadFails (b : Bundle) : Bool :=
  match loadPlugin b with
  | .ok (.loadErr _) => true
  | _ => false

theorem loadPlugin_name {b : Bundle} {p : LoadedPlugin}
    (h : loadPlugin b = .ok (.loaded p)) : p.name = b.name := by
  obtain ⟨bname, bmf, binit, bmj, bml, battr⟩ := b
  unfold loadPlugin at h
  rcases bmf with _ | _
  · simp at h
  rcases binit with _ | _
  · simp at h
  rcases bmj with _ | md
  · simp at h
  obtain ⟨mdn, mdc, mdt, mdd⟩ := md
  rcases mdn with _ | nm
  · simp at h
  rcases mdc with _ | pc
  · simp at h
  rcases mdd with _ | devs
  · simp at h
  rcases bml with _ | _
  case true => simp at h
  simp only [Bool.false_eq_true, if_false] at h
  rcases ha : battr pc with _ | ext | _ <;> rw [ha] at h
  · simp at h
  · rcases ext with _ | _
    · simp at h
    · simp only [Bool.true_eq_false, if_false] at h
      have h1 := Except.ok.inj h
      have h2 := LoadOutcome.loaded.inj h1
      rw [← h2]
  · simp at h

theorem discoverPlugins_spec (bs : List Bundle) :
    ∀ (ps : List LoadedPlugin) (errs : List (String × String)),
    (∀ b ∈ bs, loadPlugin b ≠ .error ()) →
    (ps.map LoadedPlugin.name ++ bs.map Bundle.name).Nodup →
    ∃ recs errs',
      discoverPlugins bs ps errs = .ok (recs, errs') ∧
      recs.length = ps.length + bs.countP bundleLoadsOk ∧
      errs'.length = errs.length + bs.countP bundleLoadFails := by
  induction bs with
  | nil =>
    intro ps errs _ _
    exact ⟨ps, errs, rfl, by simp, by simp⟩
  | cons b bs ih =>
    intro ps errs hsafe hnd
    rcases hload : loadPlugin b with e | out
    · exact absurd (by cases e; exact hload) (hsafe b (List.mem_cons_self b bs))
    · cases out with
      | loaded p =>
        have hname : p.name = b.name := loadPlugin_name hload
        have hnotin : p.name ∉ ps.map LoadedPlugin.name := by
          rw [hname]
          intro hmem
          have := List.disjoint_of_nodup_append hnd
          exact this hmem (by simp)
        have hup : upsertPlugin ps p = ps ++ [p] := by
          unfold upsertPlugin
          rw [if_neg]
          simp only [List.any_eq_true, not_exists, not_and]
          intro q hq
          intro hqe
          exact hnotin (by
            simp only [List.mem_map]
            exact ⟨q, hq, of_decide_eq_true hqe⟩)
        have hnd' : ((ps ++ [p]).map LoadedPlugin.name ++ bs.map Bundle.name).Nodup := by
          have : ps.map LoadedPlugin.name ++ (b.name :: bs.map Bundle.name)
              = (ps ++ [p]).map LoadedPlugin.name ++ bs.map Bundle.name := by
            simp [hname]
          simpa [this] using hnd
        obtain ⟨recs, errs', hrun, hlen, helen⟩ :=
          ih (upsertPlugin ps p) errs
            (fun x hx => hsafe x (List.mem_cons_of_mem b hx))
            (by rwa [hup])
        refine ⟨recs, errs', ?_, ?_, ?_⟩
        · simp only [discoverPlugins, hload]
          exact hrun
        · rw [hlen, hup]
          have hok : bundleLoadsOk b = true := by
            unfold bundleLoadsOk
            rw [hload]
          simp [List.countP_cons, hok]
          omega
        · rw [helen]
          have hfail : bundleLoadFails b = false := by
            unfold bundleLoadFails
            rw [hload]
          simp [List.countP_cons, hfail]
      | loadErr msg =>
        have hnd' : (ps.map LoadedPlugin.name ++ bs.map Bundle.name).Nodup := by
          refine List.Nodup.sublist ?_ hnd
          exact List.Sublist.append (List.Sublist.refl _)
            (List.sublist_cons_self b.name _)
        obtain ⟨recs, errs', hrun, hlen, helen⟩ :=
          ih ps (errs ++ [(b.name, msg)])
            (fun x hx => hsafe x (List.mem_cons_of_mem b hx)) hnd'
        refine ⟨recs, errs', ?_, ?_, ?_⟩
        · simp only [discoverPlugins, hload]
          exact hrun
        · rw [hlen]
          have hok : bundleLoadsOk b = false := by
            unfold bundleLoadsOk
            rw [hload]
          simp [List.countP_cons, hok]
        · rw [helen]
          have hfail : bundleLoadFails b = true := by
            unfold bundleLoadFails
            rw [hload]
          simp [List.countP_cons, hfail]
          omega

theorem countP_load_split : ∀ bs : List Bundle,
    (∀ b ∈ bs, loadPlugin b ≠ .error ()) →
    bs.countP bundleLoadsOk + bs.countP bundleLoadFails = bs.length := by
  intro bs
  induction bs with
  | nil => intro _; simp
  | cons b bs ih =>
    intro h
    have hb := h b (List.mem_cons_self b bs)
    have hrest := ih (fun x hx => h x (List.mem_cons_of_mem b hx))
    have hsplit : (bundleLoadsOk b = true ∧ bundleLoadFails b = false) ∨
        (bundleLoadsOk b = false ∧ bundleLoadFails b = true) := by
      unfold bundleLoadsOk bundleLoadFails
      rcases hl : loadPlugin b with e | out
      · cases e
        exact absurd hl hb
      · cases out <;> simp
    rcases hsplit with ⟨h1, h2⟩ | ⟨h1, h2⟩ <;>
      simp [List.countP_cons, h1, h2] <;> omega

/-- C5: per-bundle, non-fatal loading errors.  A bundle missing its
metadata file yields the load error naming plugin.json without raising,
and discovery over bundles with distinct directory names, none of which
triggers an uncaught exception, registers exactly one record per valid
bundle and reports exactly one load error per invalid bundle (so N
bundles with K invalid give N-K records and K errors). -/
theorem C5_per_bundle_errors (bs : List Bundle)
    (hsafe : ∀ b ∈ bs, loadPlugin b ≠ .error ())
    (hnd : (bs.map Bundle.name).Nodup) :
    (∀ b : Bundle, b.hasMetadataFile = false →
      loadPlugin b = .ok (.loadErr "Missing plugin.json")) ∧
    ∃ recs errs,
      discoverPlugins bs [] [] = .ok (recs, errs) ∧
      recs.length = bs.countP bundleLoadsOk ∧
      errs.length = bs.countP bundleLoadFails ∧
      bs.countP bundleLoadsOk + bs.countP bundleLoadFails = bs.length := by
  constructor
  · intro b hb
    unfold loadPlugin
    rw [hb]
    rfl
  · obtain ⟨recs, errs, hrun, hlen, helen⟩ :=
      discoverPlugins_spec bs [] [] hsafe (by simpa using hnd)
    exact ⟨recs, errs, hrun, by simpa using hlen, by simpa using helen,
      countP_load_split bs hsafe⟩

/-- A module in which every attribute is a proper PluginPanel subclass. -/
def goodAttr : String → ModuleAttr := fun _ => .cls true

/-- A well-formed bundle named alpha. -/
def bundleA : Bundle :=
  ⟨"alpha", true, true, some ⟨some "Alpha", some "AlphaPanel", none, some []⟩,
   false, goodAttr⟩

/-- A well-formed bundle named beta. -/
def bundleB : Bundle :=
  ⟨"beta", true, true, some ⟨some "Beta", some "BetaPanel", none, some []⟩,
   false, goodAttr⟩

/-- A bundle whose plugin.json is missing. -/
def bundleNoMeta : Bundle :=
  ⟨"gamma", false, true, none, false, goodAttr⟩

theorem C5_per_bundle_errors_witness :
    ∃ recs errs,
      discoverPlugins [bundleA, bundleB, bundleNoMeta] [] [] = .ok (recs, errs) ∧
      recs.length = 2 ∧ errs.length = 1 := by
  obtain ⟨hmiss, recs, errs, hrun, hlen, helen, hsum⟩ :=
    C5_per_bundle_errors [bundleA, bundleB, bundleNoMeta]
      (by
        intro b hb
        simp only [List.mem_cons, List.not_mem_nil, or_false] at hb
        rcases hb with rfl | rfl | rfl <;> intro hc <;>
          simp [loadPlugin, bundleA, bundleB, bundleNoMeta, goodAttr] at hc)
      (by decide)
  refine ⟨recs, errs, hrun, ?_, ?_⟩
  · rw [hlen]; decide
  · rw [helen]; decide

/-- A bundle whose declared panel_class resolves to an object that is
not a class at all. -/
def nonClassBundle : Bundle :=
  ⟨"badplugin", true, true,
   some ⟨some "Bad", some "NotAClass", none, some []⟩,
   false, fun _ => .nonClass⟩

/-- A bundle whose declared panel_class resolves to a class that does
not extend PluginPanel. -/
def notSubclassBundle : Bundle :=
  ⟨"oddplugin", true, true,
   some ⟨some "Odd", some "OddPanel", none, some []⟩,
   false, fun _ => .cls false⟩

/-- C9: the capability check.  When the resolved object is a class that
does not extend PluginPanel the loader reports a structured load error,
but when the resolved object is not a class at all,
issubclass(panel_class, PluginPanel) on line 171 raises TypeError
outside every try block, so the loader crashes instead of reporting a
load error — contradicting the spec's "failing that capability check is
a load error, not a crash". -/
theorem C9_capability_check_crashes :
    loadPlugin nonClassBundle = .error () ∧
    loadPlugin notSubclassBundle = .ok (.loadErr "Panel class must extend PluginPanel") :=
  ⟨rfl, rfl⟩

/-! ## Claim C8: the scan loop's enumeration-error handling -/

/-- C8 counterexample: on an enumeration error the body keeps the known
set, emits nothing and sleeps enumErrorBackoff = 3, which is not
strictly longer than pollInterval = 3: the claimed "backoff interval
strictly longer than the normal per-iteration polling interval" is
false. -/
theorem C8_backoff_not_longer :
    scanIteration [] .enumError = ([], [], enumErrorBackoff) ∧
    ¬ enumErrorBackoff > pollInterval :=
  ⟨rfl, by decide⟩

/-- C8 (amended): on an enumeration failure the loop logs, keeps its
known set, and sleeps a backoff interval EQUAL to the normal polling
interval (both 3 seconds, line 216 versus line 233) before retrying;
the loop never terminates because of an enumeration error — it
continues to the next iteration — and it terminates only when the
running flag is observed cleared at the top of an iteration. -/
theorem C8_enum_error_retry :
    (∀ known, scanIteration known .enumError = (known, [], enumErrorBackoff)) ∧
    enumErrorBackoff = pollInterval ∧
    (∀ rest known, scanLoop ((true, .enumError) :: rest) known
      = ([], enumErrorBackoff) :: scanLoop rest known) ∧
    (∀ rest known r, scanLoop ((false, r) :: rest) known = []) ∧
    (∀ sched : List (Bool × EnumResult), ∀ known,
      (∀ s ∈ sched, s.1 = true) →
      (scanLoop sched known).length = sched.length) := by
  refine ⟨fun known => rfl, rfl, fun rest known => rfl, fun rest known r => rfl, ?_⟩
  intro sched
  induction sched with
  | nil => intro known _; rfl
  | cons s rest ih =>
    intro known hall
    obtain ⟨flag, r⟩ := s
    have hflag : flag = true := hall (flag, r) (List.mem_cons_self _ _)
    subst hflag
    simp only [scanLoop, Bool.true_eq_false, if_false]
    rcases hit : scanIteration known r with ⟨known', evs, slp⟩
    simpa using ih known' (fun x hx => hall x (List.mem_cons_of_mem _ hx))

/-! ## Infrastructure lemmas for the manager state machine -/

/-- The panel identity an event refers to, if any. -/
def evPanel : Ev → Option Nat
  | .panelAvailable _ k => some k
  | .loadErrorEv _ _ => none
  | .construct k _ _ => some k
  | .callActive k _ => some k
  | .callOnConnect k _ => some k
  | .callOnDisconnect k _ => some k
  | .callShutdown k => some k
  | .callGetPreset k => some k
  | .callOnPresetLoaded k => some k

/-- Is this a plugin-panel-available event for the given plugin name? -/
def availFor (nm : String) : Ev → Bool
  | .panelAvailable n _ => n = nm
  | _ => false

/-- Number of plugin-panel-available events for a plugin name. -/
def availCount (nm : String) (evs : List Ev) : Nat :=
  evs.countP (availFor nm)

theorem availCount_append (nm : String) (a b : List Ev) :
    availCount nm (a ++ b) = availCount nm a + availCount nm b :=
  List.countP_append _ _ _

/-- instantiatePanel under a non-raising environment: the panel is bound
to the fresh identity, the counter advances, and the trace is
construction, active(-2), one on_device_connected per already-connected
device, active(1) when the device set is non-empty, and exactly one
panel-available dispatch. -/
theorem instantiatePanel_quiet {env : PanelEnv} (henv : env.ok)
    (n : Nat) (p : LoadedPlugin) :
    instantiatePanel env n p =
      ({ p with panel_instance := some n }, n + 1,
        .construct n p.name (p.panel_title.getD p.name) ::
        .callActive n (-2) ::
        (p.connected_devices.map (fun d => Ev.callOnConnect n d) ++
          (if p.connected_devices.length > 0 then
            [Ev.callActive n 1, Ev.panelAvailable p.name n]
          else [Ev.panelAvailable p.name n]))) := by
  obtain ⟨h1, h2, _⟩ := henv
  unfold instantiatePanel
  rw [h1, h2, h2]
  by_cases hl : p.connected_devices.length > 0
  · simp only [Bool.false_eq_true, if_false, hl, if_true]
  · simp only [Bool.false_eq_true, if_false, hl, if_neg hl]

/-- instantiatePanel never touches the device list. -/
theorem instantiatePanel_devices (env : PanelEnv) (n : Nat) (p : LoadedPlugin) :
    (instantiatePanel env n p).1.connected_devices = p.connected_devices := by
  unfold instantiatePanel
  split_ifs <;> rfl

/-- instantiatePanel never decreases the counter. -/
theorem instantiatePanel_counter (env : PanelEnv) (n : Nat) (p : LoadedPlugin) :
    n ≤ (instantiatePanel env n p).2.1 := by
  unfold instantiatePanel
  split_ifs <;> simp

/-- Every event emitted by instantiatePanel refers to the fresh panel
identity. -/
theorem instantiatePanel_ids (env : PanelEnv) (n : Nat) (p : LoadedPlugin) :
    ∀ ev ∈ (instantiatePanel env n p).2.2, ∀ k, evPanel ev = some k → k = n := by
  unfold instantiatePanel
  split_ifs <;> intro ev hev k hk <;>
    simp only [List.mem_cons, List.mem_append, List.mem_map,
      List.mem_singleton, List.not_mem_nil, or_false] at hev
  · rcases hev with rfl
    cases hk
  · rcases hev with rfl | rfl | rfl <;> simp [evPanel] at hk <;> omega
  · rcases hev with rfl | rfl | ⟨d, _, rfl⟩ | rfl | rfl <;>
      simp [evPanel] at hk <;> omega
  · rcases hev with rfl | rfl | ⟨d, _, rfl⟩ | rfl | rfl <;>
      simp [evPanel] at hk <;> omega
  · rcases hev with rfl | rfl | ⟨d, _, rfl⟩ | rfl <;>
      simp [evPanel] at hk <;> omega

/-- Every panel-available event emitted by instantiatePanel names the
record's own plugin. -/
theorem instantiatePanel_avail_name (env : PanelEnv) (n : Nat)
    (p : LoadedPlugin) (nm : String) :
    ∀ ev ∈ (instantiatePanel env n p).2.2, availFor nm ev = true → nm = p.name := by
  unfold instantiatePanel
  split_ifs <;> intro ev hev hav <;>
    simp only [List.mem_cons, List.mem_append, List.mem_map,
      List.mem_singleton, List.not_mem_nil, or_false] at hev
  · rcases hev with rfl
    cases hav
  · rcases hev with rfl | rfl | rfl <;> cases hav
  · rcases hev with rfl | rfl | ⟨d, _, rfl⟩ | rfl | rfl <;> cases hav
  · rcases hev with rfl | rfl | ⟨d, _, rfl⟩ | rfl | rfl <;>
      first
      | cases hav
      | exact (of_decide_eq_true hav).symm
  · rcases hev with rfl | rfl | ⟨d, _, rfl⟩ | rfl <;>
      first
      | cases hav
      | exact (of_decide_eq_true hav).symm

/-- The four observable outcomes of instantiatePanel on the record. -/
theorem instantiatePanel_fst (env : PanelEnv) (n : Nat) (p : LoadedPlugin) :
    (instantiatePanel env n p).1 = p ∨
    (instantiatePanel env n p).1 = { p with panel_instance := some n } := by
  unfold instantiatePanel
  split_ifs <;> simp

/-- instantiatePanel never changes a record's name, title or rules. -/
theorem instantiatePanel_meta (env : PanelEnv) (n : Nat) (p : LoadedPlugin) :
    (instantiatePanel env n p).1.name = p.name ∧
    (instantiatePanel env n p).1.panel_title = p.panel_title ∧
    (instantiatePanel env n p).1.rules = p.rules := by
  unfold instantiatePanel
  split_ifs <;> exact ⟨rfl, rfl, rfl⟩

section ConnectLemmas

variable {search : String → String → Bool} {env : PanelEnv} {cb : Bool}
variable {device : InputDevice}

theorem connectPlugin_raises {n : Nat} {p : LoadedPlugin}
    (hm : PluginMatcher.matches search p.rules device = none) :
    connectPlugin search env cb device n p = .error () := by
  unfold connectPlugin
  rw [hm]

theorem connectPlugin_nomatch {n : Nat} {p : LoadedPlugin}
    (hm : PluginMatcher.matches search p.rules device = some false) :
    connectPlugin search env cb device n p = .ok (p, n, []) := by
  unfold connectPlugin
  rw [hm]

theorem connectPlugin_new {n : Nat} {p : LoadedPlugin}
    (hm : PluginMatcher.matches search p.rules device = some true)
    (hp : p.panel_instance = none) (hcb : cb = true) :
    connectPlugin search env cb device n p =
      .ok (instantiatePanel env n
        { p with connected_devices :=
            p.connected_devices ++ [deviceInfoOf device] }) := by
  unfold connectPlugin
  rw [hm]
  dsimp only
  rw [if_pos ⟨by simp [hp], hcb⟩]

theorem connectPlugin_nocb {n : Nat} {p : LoadedPlugin}
    (hm : PluginMatcher.matches search p.rules device = some true)
    (hp : p.panel_instance = none) (hcb : cb = false) :
    connectPlugin search env cb device n p =
      .ok ({ p with connected_devices :=
          p.connected_devices ++ [deviceInfoOf device] }, n, []) := by
  unfold connectPlugin
  rw [hm]
  dsimp only
  rw [if_neg (by simp [hcb])]
  simp [hp]

theorem connectPlugin_existing {n : Nat} {p : LoadedPlugin} {pid : Nat}
    (hm : PluginMatcher.matches search p.rules device = some true)
    (hp : p.panel_instance = some pid) :
    connectPlugin search env cb device n p =
      .ok ({ p with connected_devices :=
          p.connected_devices ++ [deviceInfoOf device] }, n,
        if env.onConnectRaises pid (deviceInfoOf device) then
          [Ev.callOnConnect pid (deviceInfoOf device)]
        else
          [Ev.callOnConnect pid (deviceInfoOf device),
           Ev.callActive pid 1]) := by
  unfold connectPlugin
  rw [hm]
  dsimp only
  rw [if_neg (by simp [hp])]
  by_cases hr : env.onConnectRaises pid (deviceInfoOf device) <;> simp [hp, hr]

/-- The counter never decreases across one plugin's processing. -/
theorem connectPlugin_mono {n : Nat} {p p' : LoadedPlugin} {n' : Nat}
    {evs : List Ev}
    (h : connectPlugin search env cb device n p = .ok (p', n', evs)) :
    n ≤ n' := by
  rcases hm : PluginMatcher.matches search p.rules device with _ | b
  · rw [connectPlugin_raises hm] at h
    cases h
  rcases b with _ | _
  · rw [connectPlugin_nomatch hm] at h
    cases h
    exact le_refl n
  rcases hp : p.panel_instance with _ | pid
  · rcases hcb : cb with _ | _
    · rw [connectPlugin_nocb hm hp hcb] at h
      cases h
      exact le_refl n
    · rw [connectPlugin_new hm hp hcb] at h
      have hq := Except.ok.inj h
      have hc := instantiatePanel_counter env n
        { p with connected_devices := p.connected_devices ++ [deviceInfoOf device] }
      rw [hq] at hc
      exact hc
  · rw [connectPlugin_existing hm hp] at h
    cases h
    exact le_refl n

/-- Processing one plugin never changes its name, title or rules. -/
theorem connectPlugin_meta {n : Nat} {p p' : LoadedPlugin} {n' : Nat}
    {evs : List Ev}
    (h : connectPlugin search env cb device n p = .ok (p', n', evs)) :
    p'.name = p.name ∧ p'.panel_title = p.panel_title ∧ p'.rules = p.rules := by
  rcases hm : PluginMatcher.matches search p.rules device with _ | b
  · rw [connectPlugin_raises hm] at h
    cases h
  rcases b with _ | _
  · rw [connectPlugin_nomatch hm] at h
    cases h
    exact ⟨rfl, rfl, rfl⟩
  rcases hp : p.panel_instance with _ | pid
  · rcases hcb : cb with _ | _
    · rw [connectPlugin_nocb hm hp hcb] at h
      cases h
      exact ⟨rfl, rfl, rfl⟩
    · rw [connectPlugin_new hm hp hcb] at h
      have hq := Except.ok.inj h
      have hmeta := instantiatePanel_meta env n
        { p with connected_devices := p.connected_devices ++ [deviceInfoOf device] }
      rw [hq] at hmeta
      exact hmeta
  · rw [connectPlugin_existing hm hp] at h
    cases h
    exact ⟨rfl, rfl, rfl⟩

/-- A matched device is appended to the record's device set, whatever
the plugin code does. -/
theorem connectPlugin_devices_matched {n : Nat} {p p' : LoadedPlugin}
    {n' : Nat} {evs : List Ev}
    (h : connectPlugin search env cb device n p = .ok (p', n', evs))
    (hm : PluginMatcher.matches search p.rules device = some true) :
    p'.connected_devices = p.connected_devices ++ [deviceInfoOf device] := by
  rcases hp : p.panel_instance with _ | pid
  · rcases hcb : cb with _ | _
    · rw [connectPlugin_nocb hm hp hcb] at h
      cases h
      rfl
    · rw [connectPlugin_new hm hp hcb] at h
      have hq := Except.ok.inj h
      have hd := instantiatePanel_devices env n
        { p with connected_devices := p.connected_devices ++ [deviceInfoOf device] }
      rw [hq] at hd
      exact hd
  · rw [connectPlugin_existing hm hp] at h
    cases h
    rfl

/-- An unmatched device leaves the record, the counter and the trace
untouched. -/
theorem connectPlugin_devices_unmatched {n : Nat} {p p' : LoadedPlugin}
    {n' : Nat} {evs : List Ev}
    (h : connectPlugin search env cb device n p = .ok (p', n', evs))
    (hm : PluginMatcher.matches search p.rules device = some false) :
    p' = p ∧ n' = n ∧ evs = [] := by
  rw [connectPlugin_nomatch hm] at h
  cases h
  exact ⟨rfl, rfl, rfl⟩

/-- An existing panel instance survives the connect handling of its
record unchanged. -/
theorem connectPlugin_panel_preserved {n : Nat} {p p' : LoadedPlugin}
    {n' : Nat} {evs : List Ev} {pid : Nat}
    (h : connectPlugin search env cb device n p = .ok (p', n', evs))
    (hp : p.panel_instance = some pid) :
    p'.panel_instance = some pid := by
  rcases hm : PluginMatcher.matches search p.rules device with _ | b
  · rw [connectPlugin_raises hm] at h
    cases h
  rcases b with _ | _
  · rw [connectPlugin_nomatch hm] at h
    cases h
    exact hp
  · rw [connectPlugin_existing hm hp] at h
    cases h
    exact hp

/-- If the record's rules always yield a Boolean from the matcher, the
per-plugin handling cannot raise. -/
theorem connectPlugin_total {n : Nat} {p : LoadedPlugin}
    (hm : PluginMatcher.matches search p.rules device ≠ none) :
    ∃ r, connectPlugin search env cb device n p = .ok r := by
  rcases hmm : PluginMatcher.matches search p.rules device with _ | b
  · exact absurd hmm hm
  rcases b with _ | _
  · exact ⟨_, connectPlugin_nomatch hmm⟩
  rcases hp : p.panel_instance with _ | pid
  · rcases hcb : cb with _ | _
    · exact ⟨_, connectPlugin_nocb hmm hp rfl⟩
    · exact ⟨_, connectPlugin_new hmm hp rfl⟩
  · exact ⟨_, connectPlugin_existing hmm hp⟩

/-- Splitting the registry fold of _handle_device_connected at an append. -/
theorem connectGo_append (xs ys : List LoadedPlugin) (n : Nat) :
    connectGo search env cb device (xs ++ ys) n =
      match connectGo search env cb device xs n with
      | .error e => .error e
      | .ok (qs, n') =>
        match connectGo search env cb device ys n' with
        | .error e => .error e
        | .ok (rs, n'') => .ok (qs ++ rs, n'') := by
  induction xs generalizing n with
  | nil =>
    rcases h : connectGo search env cb device ys n with e | ⟨rs, n''⟩ <;>
      simp [connectGo, h]
  | cons x xs ih =>
    rcases h1 : connectPlugin search env cb device n x with e | ⟨p', n1, evs⟩
    · simp [connectGo, h1]
    · simp only [List.cons_append, connectGo, h1, List.append_eq]
      rw [ih n1]
      rcases h2 : connectGo search env cb device xs n1 with e | ⟨qs, n2⟩
      · simp
      · rcases h3 : connectGo search env cb device ys n2 with e | ⟨rs, n3⟩ <;>
          simp [h3]

/-- Totality of the connect fold under Boolean-valued matching. -/
theorem connectGo_total (ps : List LoadedPlugin) (n : Nat)
    (hm : ∀ p ∈ ps, PluginMatcher.matches search p.rules device ≠ none) :
    ∃ qs n', connectGo search env cb device ps n = .ok (qs, n') := by
  induction ps generalizing n with
  | nil => exact ⟨[], n, rfl⟩
  | cons p ps ih =>
    obtain ⟨⟨p', n1, evs⟩, h1⟩ :=
      @connectPlugin_total search env cb device n p (hm p (List.mem_cons_self p ps))
    obtain ⟨qs, n', h2⟩ := ih n1 (fun x hx => hm x (List.mem_cons_of_mem p hx))
    exact ⟨(p', evs) :: qs, n', by simp [connectGo, h1, h2]⟩

/-- Pointwise description of the connect fold: result i comes from
processing input i with some intermediate counter at least n. -/
theorem connectGo_pointwise (ps : List LoadedPlugin) (n : Nat)
    (qs : List (LoadedPlugin × List Ev)) (n' : Nat)
    (h : connectGo search env cb device ps n = .ok (qs, n')) :
    qs.length = ps.length ∧ n ≤ n' ∧
    ∀ (i : Nat) (p : LoadedPlugin), ps[i]? = some p →
      ∃ p' evs m m', qs[i]? = some (p', evs) ∧ n ≤ m ∧
        connectPlugin search env cb device m p = .ok (p', m', evs) := by
  induction ps generalizing n qs with
  | nil =>
    cases h
    exact ⟨rfl, le_refl _, by intro i p hp; simp at hp⟩
  | cons x xs ih =>
    rcases h1 : connectPlugin search env cb device n x with e | ⟨p', n1, evs⟩ <;>
      simp only [connectGo, h1] at h
    · exact Except.noConfusion h
    rcases h2 : connectGo search env cb device xs n1 with e | ⟨qs', n2⟩ <;>
      simp only [h2] at h
    · exact Except.noConfusion h
    cases Except.ok.inj h
    obtain ⟨hlen, hle, hpt⟩ := ih n1 qs' h2
    have hn1 : n ≤ n1 := connectPlugin_mono h1
    refine ⟨by simp [hlen], le_trans hn1 hle, ?_⟩
    intro i p hp
    cases i with
    | zero =>
      simp only [List.getElem?_cons_zero, Option.some_inj] at hp
      subst hp
      exact ⟨p', evs, n, n1, by simp, le_refl n, h1⟩
    | succ j =>
      simp only [List.getElem?_cons_succ] at hp ⊢
      obtain ⟨q', evs', m, m', hq, hm', hc⟩ := hpt j p hp
      exact ⟨q', evs', m, m', hq, le_trans hn1 hm', hc⟩

end ConnectLemmas

section DisconnectLemmas

variable {env : PanelEnv} {path : String}

/-- The device loop of _handle_device_disconnected, run on a snapshot
whose processed non-matching prefix is pre: it removes every snapshot
entry with the given path from the live list and succeeds whenever
active(-1) does not raise for the record's panel. -/
theorem disconnectDevices_ok {panel : Option Nat}
    (hact : ∀ pid, panel = some pid → env.activeRaises pid (-1) = false) :
    ∀ (ds pre : List PluginDeviceInfo), (∀ e ∈ pre, e.path ≠ path) →
    ∃ evs, disconnectDevices env path panel ds (pre ++ ds) =
      .ok (pre ++ ds.filter (fun d => d.path ≠ path), evs) := by
  intro ds
  induction ds with
  | nil =>
    intro pre _
    exact ⟨[], by simp [disconnectDevices]⟩
  | cons d ds ih =>
    intro pre hpre
    by_cases hd : d.path = path
    · have hdpre : d ∉ pre := fun hmem => hpre d hmem hd
      have herase : (pre ++ d :: ds).erase d = pre ++ ds := by
        rw [List.erase_append_right _ hdpre, List.erase_cons_head]
      have hfilter : (d :: ds).filter (fun d => d.path ≠ path) =
          ds.filter (fun d => d.path ≠ path) := by
        simp [List.filter_cons, hd]
      obtain ⟨evs, hrec⟩ := ih pre hpre
      rcases panel with _ | pid
      · refine ⟨evs, ?_⟩
        rw [disconnectDevices, if_pos hd, herase]
        simp [hrec, List.filter_cons, hd]
      · have hr : env.activeRaises pid (-1) = false := hact pid rfl
        by_cases hlen : (pre ++ ds).length = 0
        · refine ⟨.callOnDisconnect pid d :: .callActive pid (-1) :: evs, ?_⟩
          rw [disconnectDevices, if_pos hd, herase]
          simp [hlen, hr, hrec, List.filter_cons, hd]
        · refine ⟨.callOnDisconnect pid d :: evs, ?_⟩
          rw [disconnectDevices, if_pos hd, herase]
          dsimp only
          rw [if_neg hlen, hrec]
          simp [List.filter_cons, hd]
    · have hpre' : ∀ e ∈ pre ++ [d], e.path ≠ path := by
        intro e he
        rcases List.mem_append.mp he with he | he
        · exact hpre e he
        · rcases List.mem_singleton.mp he with rfl
          exact hd
      obtain ⟨evs, hrec⟩ := ih (pre ++ [d]) hpre'
      refine ⟨evs, ?_⟩
      rw [disconnectDevices, if_neg hd]
      have hshuffle : pre ++ d :: ds = (pre ++ [d]) ++ ds := by simp
      rw [hshuffle, hrec]
      have : (pre ++ [d]) ++ ds.filter (fun d => d.path ≠ path) =
          pre ++ (d :: ds).filter (fun d => d.path ≠ path) := by
        simp [List.filter_cons, hd]
      rw [this]

/-- Per-record disconnect handling: removes exactly the devices with the
disconnected path, keeps the panel instance, and succeeds whenever
active(-1) does not raise for the record's panel. -/
theorem disconnectPlugin_ok {p : LoadedPlugin}
    (hact : ∀ pid, p.panel_instance = some pid →
      env.activeRaises pid (-1) = false) :
    ∃ evs, disconnectPlugin env path p =
      .ok ({ p with connected_devices :=
          p.connected_devices.filter (fun d => d.path ≠ path) }, evs) := by
  obtain ⟨evs, h⟩ :=
    disconnectDevices_ok hact p.connected_devices [] (by intro e he; cases he)
  refine ⟨evs, ?_⟩
  unfold disconnectPlugin
  simp only [List.nil_append] at h
  rw [h]

/-- The device loop can fail only through the uncaught active(-1) call. -/
theorem disconnectDevices_error {panel : Option Nat} :
    ∀ (ds cur : List PluginDeviceInfo),
    disconnectDevices env path panel ds cur = .error () →
    ∃ pid, panel = some pid ∧ env.activeRaises pid (-1) = true := by
  intro ds
  induction ds with
  | nil =>
    intro cur h
    cases h
  | cons d ds ih =>
    intro cur h
    rw [disconnectDevices] at h
    by_cases hd : d.path = path
    · rw [if_pos hd] at h
      dsimp only at h
      rcases panel with _ | pid
      · dsimp only at h
        rcases hrec : disconnectDevices env path none ds (cur.erase d)
          with e | ⟨fin, evs⟩ <;> rw [hrec] at h
        · cases e
          exact ih (cur.erase d) hrec
        · exact Except.noConfusion h
      · dsimp only at h
        by_cases hlen : (cur.erase d).length = 0
        · rw [if_pos hlen] at h
          by_cases hr : env.activeRaises pid (-1)
          · exact ⟨pid, rfl, hr⟩
          · rw [if_neg (by simp [hr])] at h
            rcases hrec : disconnectDevices env path (some pid) ds (cur.erase d)
              with e | ⟨fin, evs⟩ <;> rw [hrec] at h
            · cases e
              exact ih (cur.erase d) hrec
            · exact Except.noConfusion h
        · rw [if_neg hlen] at h
          rcases hrec : disconnectDevices env path (some pid) ds (cur.erase d)
            with e | ⟨fin, evs⟩ <;> rw [hrec] at h
          · cases e
            exact ih (cur.erase d) hrec
          · exact Except.noConfusion h
    · rw [if_neg hd] at h
      rcases hrec : disconnectDevices env path panel ds cur
        with e | ⟨fin, evs⟩ <;> rw [hrec] at h
      · cases e
        exact ih cur hrec
      · exact Except.noConfusion h

/-- Per-record disconnect handling can fail only through the uncaught
active(-1) call on the record's own panel. -/
theorem disconnectPlugin_error {p : LoadedPlugin}
    (h : disconnectPlugin env path p = .error ()) :
    ∃ pid, p.panel_instance = some pid ∧
      env.activeRaises pid (-1) = true := by
  unfold disconnectPlugin at h
  rcases hrec : disconnectDevices env path p.panel_instance
      p.connected_devices p.connected_devices with e | ⟨fin, evs⟩ <;>
    rw [hrec] at h
  · cases e
    exact disconnectDevices_error p.connected_devices p.connected_devices hrec
  · cases h

/-- Splitting the registry fold of _handle_device_disconnected at an
append. -/
theorem disconnectGo_append (xs ys : List LoadedPlugin) :
    disconnectGo env path (xs ++ ys) =
      match disconnectGo env path xs with
      | .error e => .error e
      | .ok qs =>
        match disconnectGo env path ys with
        | .error e => .error e
        | .ok rs => .ok (qs ++ rs) := by
  induction xs with
  | nil =>
    rcases h : disconnectGo env path ys with e | rs <;> simp [disconnectGo, h]
  | cons x xs ih =>
    rcases h1 : disconnectPlugin env path x with e | ⟨p', evs⟩
    · simp [disconnectGo, h1]
    · simp only [List.cons_append, disconnectGo, h1, List.append_eq]
      rw [ih]
      rcases h2 : disconnectGo env path xs with e | qs
      · simp
      · rcases h3 : disconnectGo env path ys with e | rs <;> simp [h3]

/-- Pointwise description of the disconnect fold. -/
theorem disconnectGo_pointwise (ps : List LoadedPlugin)
    (qs : List (LoadedPlugin × List Ev))
    (h : disconnectGo env path ps = .ok qs) :
    qs.length = ps.length ∧
    ∀ (i : Nat) (p : LoadedPlugin), ps[i]? = some p →
      ∃ p' evs, qs[i]? = some (p', evs) ∧
        disconnectPlugin env path p = .ok (p', evs) := by
  induction ps generalizing qs with
  | nil =>
    cases h
    exact ⟨rfl, by intro i p hp; simp at hp⟩
  | cons x xs ih =>
    rcases h1 : disconnectPlugin env path x with e | ⟨p', evs⟩ <;>
      simp only [disconnectGo, h1] at h
    · exact Except.noConfusion h
    rcases h2 : disconnectGo env path xs with e | qs' <;>
      simp only [h2] at h
    · exact Except.noConfusion h
    cases Except.ok.inj h
    obtain ⟨hlen, hpt⟩ := ih qs' h2
    refine ⟨by simp [hlen], ?_⟩
    intro i p hp
    cases i with
    | zero =>
      simp only [List.getElem?_cons_zero, Option.some_inj] at hp
      subst hp
      exact ⟨p', evs, by simp, h1⟩
    | succ j =>
      simp only [List.getElem?_cons_succ] at hp ⊢
      exact hpt j p hp

/-- Totality of the disconnect fold when active(-1) raises for no
panel of the registry. -/
theorem disconnectGo_total (ps : List LoadedPlugin)
    (hact : ∀ p ∈ ps, ∀ pid, p.panel_instance = some pid →
      env.activeRaises pid (-1) = false) :
    ∃ qs, disconnectGo env path ps = .ok qs := by
  induction ps with
  | nil => exact ⟨[], rfl⟩
  | cons p ps ih =>
    obtain ⟨evs, h1⟩ :=
      @disconnectPlugin_ok env path p (hact p (List.mem_cons_self p ps))
    obtain ⟨qs, h2⟩ := ih (fun x hx => hact x (List.mem_cons_of_mem p hx))
    exact ⟨_, by rw [disconnectGo, h1]; dsimp only; rw [h2]⟩

/-- The disconnect fold can fail only through the uncaught active(-1)
call on some record's panel. -/
theorem disconnectGo_error (ps : List LoadedPlugin)
    (h : disconnectGo env path ps = .error ()) :
    ∃ p ∈ ps, ∃ pid, p.panel_instance = some pid ∧
      env.activeRaises pid (-1) = true := by
  induction ps with
  | nil => cases h
  | cons x xs ih =>
    rw [disconnectGo] at h
    rcases h1 : disconnectPlugin env path x with e | ⟨p', evs⟩ <;>
      rw [h1] at h
    · cases e
      obtain ⟨pid, hp, hr⟩ := disconnectPlugin_error h1
      exact ⟨x, List.mem_cons_self x xs, pid, hp, hr⟩
    · rcases h2 : disconnectGo env path xs with e | qs <;> rw [h2] at h
      · cases e
        obtain ⟨p, hmem, pid, hp, hr⟩ := ih h2
        exact ⟨p, List.mem_cons_of_mem x hmem, pid, hp, hr⟩
      · cases h

/-- Disconnecting the last device of a record with a live panel: the
device is removed, on_device_disconnected and active(-1) are called, and
the panel instance is kept. -/
theorem disconnectPlugin_last {p : LoadedPlugin} {pid : Nat}
    {d0 : PluginDeviceInfo}
    (henv : env.activeRaises pid (-1) = false)
    (hp : p.panel_instance = some pid)
    (hd : p.connected_devices = [d0]) (hpath : d0.path = path) :
    disconnectPlugin env path p =
      .ok ({ p with connected_devices := [] },
        [.callOnDisconnect pid d0, .callActive pid (-1)]) := by
  unfold disconnectPlugin
  rw [hd, hp]
  rw [disconnectDevices, if_pos hpath, List.erase_cons_head]
  simp [disconnectDevices, henv]

/-- Whenever the device loop succeeds, the resulting live list is the
original list with every entry of the disconnected path removed. -/
theorem disconnectDevices_ok_shape {panel : Option Nat} :
    ∀ (ds pre fin : List PluginDeviceInfo) (evs : List Ev),
    (∀ e ∈ pre, e.path ≠ path) →
    disconnectDevices env path panel ds (pre ++ ds) = .ok (fin, evs) →
    fin = pre ++ ds.filter (fun d => d.path ≠ path) := by
  intro ds
  induction ds with
  | nil =>
    intro pre fin evs _ h
    rw [disconnectDevices] at h
    cases Except.ok.inj h
    simp
  | cons d ds ih =>
    intro pre fin evs hpre h
    by_cases hd : d.path = path
    · have hdpre : d ∉ pre := fun hmem => hpre d hmem hd
      have herase : (pre ++ d :: ds).erase d = pre ++ ds := by
        rw [List.erase_append_right _ hdpre, List.erase_cons_head]
      rw [disconnectDevices, if_pos hd, herase] at h
      dsimp only at h
      have hfin : fin = pre ++ ds.filter (fun d => d.path ≠ path) := by
        rcases panel with _ | pid
        · dsimp only at h
          rcases hrec : disconnectDevices env path none ds (pre ++ ds)
            with e | ⟨fin', evs'⟩ <;> rw [hrec] at h
          · exact Except.noConfusion h
          · cases Except.ok.inj h
            exact ih pre _ _ hpre hrec
        · dsimp only at h
          by_cases hlen : (pre ++ ds).length = 0
          · rw [if_pos hlen] at h
            by_cases hr : env.activeRaises pid (-1)
            · rw [if_pos hr] at h
              exact Except.noConfusion h
            · rw [if_neg (by simp [hr])] at h
              rcases hrec : disconnectDevices env path (some pid) ds (pre ++ ds)
                with e | ⟨fin', evs'⟩ <;> rw [hrec] at h
              · exact Except.noConfusion h
              · cases Except.ok.inj h
                exact ih pre _ _ hpre hrec
          · rw [if_neg hlen] at h
            rcases hrec : disconnectDevices env path (some pid) ds (pre ++ ds)
              with e | ⟨fin', evs'⟩ <;> rw [hrec] at h
            · exact Except.noConfusion h
            · cases Except.ok.inj h
              exact ih pre _ _ hpre hrec
      rw [hfin]
      simp [List.filter_cons, hd]
    · rw [disconnectDevices, if_neg hd] at h
      have hpre' : ∀ e ∈ pre ++ [d], e.path ≠ path := by
        intro e he
        rcases List.mem_append.mp he with he | he
        · exact hpre e he
        · rcases List.mem_singleton.mp he with rfl
          exact hd
      have hshuffle : pre ++ d :: ds = (pre ++ [d]) ++ ds := by simp
      rw [hshuffle] at h
      rcases hrec : disconnectDevices env path panel ds ((pre ++ [d]) ++ ds)
        with e | ⟨fin', evs'⟩ <;> rw [hrec] at h
      · exact Except.noConfusion h
      · cases Except.ok.inj h
        have := ih (pre ++ [d]) _ _ hpre' hrec
        rw [this]
        simp [List.filter_cons, hd]

/-- Whenever per-record disconnect handling succeeds, the result is the
input record with exactly the matching devices dropped (in particular
the panel instance, name, title and rules are untouched). -/
theorem disconnectPlugin_shape {p p' : LoadedPlugin} {evs : List Ev}
    (h : disconnectPlugin env path p = .ok (p', evs)) :
    p' = { p with connected_devices :=
        p.connected_devices.filter (fun d => d.path ≠ path) } := by
  unfold disconnectPlugin at h
  rcases hrec : disconnectDevices env path p.panel_instance
      p.connected_devices p.connected_devices with e | ⟨fin, evs'⟩ <;>
    rw [hrec] at h
  · exact Except.noConfusion h
  · cases Except.ok.inj h
    have := disconnectDevices_ok_shape p.connected_devices [] _ _
      (by intro e he; cases he) (by simpa using hrec)
    simp only [List.nil_append] at this
    rw [this]

end DisconnectLemmas

/-! ## Claim C2: exception containment -/

/-- A concrete environment whose plugin code raises exactly in the
active(-1) deactivation call. -/
def deactivateRaisesEnv : PanelEnv where
  constructRaises := fun _ => false
  activeRaises := fun _ s => s = -1
  onConnectRaises := fun _ _ => false
  onDisconnectRaises := fun _ _ => false
  shutdownRaises := fun _ => false
  getPresetRaises := fun _ => false
  onPresetLoadedRaises := fun _ => false
  presetName := fun p => "panel" ++ toString p

/-- The example device of the spec scenario. -/
def wheelDevice : InputDevice :=
  ⟨"ACME Wheel", 4660, 22136, "/dev/input/event7"⟩

/-- Its descriptor as built by _handle_device_connected. -/
def wheelInfo : PluginDeviceInfo :=
  ⟨"ACME Wheel", 4660, 22136, "/dev/input/event7"⟩

/-- The example rule of the spec scenario. -/
def wheelRule : MatchRule :=
  ⟨some (.str "0x1234"), some (.str "0x5678"), none⟩

/-- A record whose panel exists and whose only device is the example
device. -/
def wheelPluginLive : LoadedPlugin :=
  ⟨"wheel", none, [wheelRule], [wheelInfo], some 0⟩

/-- C2 counterexample: with a plugin whose active raises on the
deactivation signal, disconnecting the record's last device makes the
exception propagate out of _handle_device_disconnected (the active(-1)
call on line 282 is outside every try block), refuting "it does not
propagate out of the manager operation". -/
theorem C2_uncaught_deactivation :
    handleDeviceDisconnected deactivateRaisesEnv
      ⟨[wheelPluginLive], true, 1, true⟩ "/dev/input/event7" = .error () := rfl

/-- C2 (amended): every plugin call site of the connect notification,
panel instantiation, preset access and shutdown paths is wrapped in
try/except, and the disconnect path catches on_device_disconnected; but
the deactivation signal active(-1) sent when a record's device set
empties is NOT caught, and it is the only uncaught site of the
disconnect path.  Concretely: connect handling never propagates plugin
exceptions (for registries whose rules the matcher evaluates without
error); disconnect handling never propagates unless active(-1) raises;
and a disconnect error always comes from an active(-1) raise of some
record's live panel. -/
theorem C2_exception_containment :
    (∀ (search : String → String → Bool) (env : PanelEnv)
        (st : ManagerState) (d : InputDevice),
      (∀ p ∈ st.plugins, PluginMatcher.matches search p.rules d ≠ none) →
      ∃ r, handleDeviceConnected search env st d = .ok r) ∧
    (∀ (env : PanelEnv) (st : ManagerState) (path : String),
      (∀ pid, env.activeRaises pid (-1) = false) →
      ∃ r, handleDeviceDisconnected env st path = .ok r) ∧
    (∀ (env : PanelEnv) (st : ManagerState) (path : String),
      handleDeviceDisconnected env st path = .error () →
      ∃ p ∈ st.plugins, ∃ pid, p.panel_instance = some pid ∧
        env.activeRaises pid (-1) = true) := by
  refine ⟨?_, ?_, ?_⟩
  · intro search env st d hm
    obtain ⟨qs, n', h⟩ := connectGo_total st.plugins st.nextPanel hm
    exact ⟨_, by rw [handleDeviceConnected, h]⟩
  · intro env st path hr
    obtain ⟨qs, h⟩ := disconnectGo_total st.plugins
      (fun p _ pid _ => hr pid)
    exact ⟨_, by rw [handleDeviceDisconnected, h]⟩
  · intro env st path h
    rw [handleDeviceDisconnected] at h
    rcases hgo : disconnectGo env path st.plugins with e | qs <;>
      rw [hgo] at h
    · cases e
      exact disconnectGo_error st.plugins hgo
    · exact Except.noConfusion h

theorem C2_exception_containment_witness :
    (∃ r, handleDeviceConnected reSearchIC deactivateRaisesEnv
      ⟨[wheelPluginLive], true, 1, true⟩ wheelDevice = .ok r) ∧
    (∃ r, handleDeviceDisconnected quietEnv
      ⟨[wheelPluginLive], true, 1, true⟩ "/dev/input/event7" = .ok r) := by
  constructor
  · exact C2_exception_containment.1 reSearchIC deactivateRaisesEnv
      ⟨[wheelPluginLive], true, 1, true⟩ wheelDevice
      (by
        intro p hp
        rcases List.mem_singleton.mp hp with rfl
        intro hc
        simp [PluginMatcher.matches, matchesFrom, wheelRule, vidToInt,
          int16, wheelPluginLive, wheelDevice, hexDigitsVal, hexDigitVal] at hc)
  · exact C2_exception_containment.2.1 quietEnv
      ⟨[wheelPluginLive], true, 1, true⟩ "/dev/input/event7"
      (fun pid => rfl)

/-! ## Claim C7: non-exclusive device ownership -/

/-- C7: a connect event appends the device descriptor to the device set
of every record whose matcher accepts it (and leaves non-matching
records' sets unchanged), and a disconnect event removes the devices
with that path from every record's set — membership is not exclusive to
one record. -/
theorem C7_nonexclusive_ownership :
    (∀ (search : String → String → Bool) (env : PanelEnv)
        (st st' : ManagerState) (d : InputDevice) (evs : List Ev),
      handleDeviceConnected search env st d = .ok (st', evs) →
      st'.plugins.length = st.plugins.length ∧
      ∀ (i : Nat) (p : LoadedPlugin), st.plugins[i]? = some p →
        ∃ p', st'.plugins[i]? = some p' ∧
          (PluginMatcher.matches search p.rules d = some true →
            p'.connected_devices = p.connected_devices ++ [deviceInfoOf d]) ∧
          (PluginMatcher.matches search p.rules d = some false →
            p'.connected_devices = p.connected_devices)) ∧
    (∀ (env : PanelEnv) (st st' : ManagerState) (path : String) (evs : List Ev),
      handleDeviceDisconnected env st path = .ok (st', evs) →
      st'.plugins.length = st.plugins.length ∧
      ∀ (i : Nat) (p : LoadedPlugin), st.plugins[i]? = some p →
        ∃ p', st'.plugins[i]? = some p' ∧
          p'.connected_devices =
            p.connected_devices.filter (fun e => e.path ≠ path)) := by
  constructor
  · intro search env st st' d evs h
    rw [handleDeviceConnected] at h
    rcases hgo : connectGo search env st.buttonCallback d st.plugins st.nextPanel
      with e | ⟨qs, n'⟩ <;> rw [hgo] at h
    · exact Except.noConfusion h
    cases Except.ok.inj h
    obtain ⟨hlen, _, hpt⟩ := connectGo_pointwise st.plugins st.nextPanel qs n' hgo
    refine ⟨by simp [hlen], ?_⟩
    intro i p hp
    obtain ⟨p', pevs, m, m', hq, _, hc⟩ := hpt i p hp
    refine ⟨p', ?_, ?_, ?_⟩
    · simp [hq]
    · intro hm
      exact connectPlugin_devices_matched hc hm
    · intro hm
      rw [(connectPlugin_devices_unmatched hc hm).1]
  · intro env st st' path evs h
    rw [handleDeviceDisconnected] at h
    rcases hgo : disconnectGo env path st.plugins with e | qs <;> rw [hgo] at h
    · exact Except.noConfusion h
    cases Except.ok.inj h
    obtain ⟨hlen, hpt⟩ := disconnectGo_pointwise st.plugins qs hgo
    refine ⟨by simp [hlen], ?_⟩
    intro i p hp
    obtain ⟨p', pevs, hq, hc⟩ := hpt i p hp
    refine ⟨p', ?_, ?_⟩
    · simp [hq]
    · rw [disconnectPlugin_shape hc]

/-- Two records both matching the example device by name pattern. -/
def pluginX : LoadedPlugin :=
  ⟨"wheelx", none, [⟨none, none, some "Wheel"⟩], [], none⟩

/-- Second record, matching by a different pattern. -/
def pluginY : LoadedPlugin :=
  ⟨"wheely", none, [⟨none, none, some "ACME"⟩], [], none⟩

theorem C7_nonexclusive_ownership_witness :
    ∃ (st' : ManagerState) (evs : List Ev),
      handleDeviceConnected reSearchIC quietEnv
        ⟨[pluginX, pluginY], false, 0, true⟩ wheelDevice = .ok (st', evs) ∧
      (st'.plugins[0]?).map LoadedPlugin.connected_devices
        = some [wheelInfo] ∧
      (st'.plugins[1]?).map LoadedPlugin.connected_devices
        = some [wheelInfo] := by
  have hrun : handleDeviceConnected reSearchIC quietEnv
      ⟨[pluginX, pluginY], false, 0, true⟩ wheelDevice =
      .ok (⟨[⟨"wheelx", none, [⟨none, none, some "Wheel"⟩], [wheelInfo], none⟩,
             ⟨"wheely", none, [⟨none, none, some "ACME"⟩], [wheelInfo], none⟩],
            false, 0, true⟩, []) := by rfl
  obtain ⟨hlen, hpt⟩ :=
    (C7_nonexclusive_ownership.1 reSearchIC quietEnv
      ⟨[pluginX, pluginY], false, 0, true⟩ _ wheelDevice [] hrun)
  obtain ⟨px, hqx, hmx, _⟩ := hpt 0 pluginX (by decide)
  obtain ⟨py, hqy, hmy, _⟩ := hpt 1 pluginY (by decide)
  refine ⟨_, _, hrun, ?_, ?_⟩
  · simp only [hqx, Option.map]
    rw [hmx (by decide)]
    decide
  · simp only [hqy, Option.map]
    rw [hmy (by decide)]
    decide

/-! ## Lemmas for get_plugin_panels -/

section PanelsLemmas

variable {env : PanelEnv}

theorem panelsPlugin_no_devices {n : Nat} {p : LoadedPlugin}
    (hd : ¬ p.connected_devices.length > 0) :
    panelsPlugin env n p = (p, n, [], none) := by
  unfold panelsPlugin
  rw [if_neg hd]

theorem panelsPlugin_existing {n : Nat} {p : LoadedPlugin} {pid : Nat}
    (hd : p.connected_devices.length > 0)
    (hp : p.panel_instance = some pid) :
    panelsPlugin env n p =
      (p, n, [], some (p.panel_title.getD p.name, pid)) := by
  unfold panelsPlugin
  rw [if_pos hd]
  simp [hp]

theorem panelsPlugin_new (henv : env.ok) {n : Nat} {p : LoadedPlugin}
    (hd : p.connected_devices.length > 0)
    (hp : p.panel_instance = none) :
    panelsPlugin env n p =
      ({ p with panel_instance := some n }, n + 1,
        .construct n p.name (p.panel_title.getD p.name) ::
        .callActive n (-2) ::
        (p.connected_devices.map (fun d => Ev.callOnConnect n d) ++
          [Ev.callActive n 1, Ev.panelAvailable p.name n]),
        some (p.panel_title.getD p.name, n)) := by
  unfold panelsPlugin
  rw [if_pos hd]
  simp only [hp, if_pos rfl, instantiatePanel_quiet henv, hd, if_true]

/-- Whatever the environment does, processing one record in
get_plugin_panels with an existing panel leaves the record untouched. -/
theorem panelsPlugin_panel_preserved {n : Nat} {p : LoadedPlugin} {pid : Nat}
    (hp : p.panel_instance = some pid) :
    (panelsPlugin env n p).1 = p := by
  unfold panelsPlugin
  by_cases hd : p.connected_devices.length > 0
  · rw [if_pos hd]
    simp [hp]
  · rw [if_neg hd]

theorem panelsPlugin_counter (n : Nat) (p : LoadedPlugin) :
    n ≤ (panelsPlugin env n p).2.1 := by
  unfold panelsPlugin
  by_cases hd : p.connected_devices.length > 0
  · rw [if_pos hd]
    by_cases hp : p.panel_instance = none
    · simp only [hp, if_pos rfl]
      have := instantiatePanel_counter env n p
      rcases hi : instantiatePanel env n p with ⟨q, m, tr⟩
      rw [hi] at this
      rcases hq : q.panel_instance with _ | pid <;> simp [hq, this]
    · simp only [hp, if_neg hp]
      rcases hq : p.panel_instance with _ | pid <;> simp [hq]
  · rw [if_neg hd]

/-- Splitting the registry fold of get_plugin_panels at an append. -/
theorem panelsGo_append (xs ys : List LoadedPlugin) (n : Nat) :
    panelsGo env (xs ++ ys) n =
      ((panelsGo env xs n).1 ++ (panelsGo env ys (panelsGo env xs n).2).1,
        (panelsGo env ys (panelsGo env xs n).2).2) := by
  induction xs generalizing n with
  | nil => simp [panelsGo]
  | cons x xs ih =>
    rcases h1 : panelsPlugin env n x with ⟨p', n1, evs, entry⟩
    simp only [List.cons_append, panelsGo, h1, List.append_eq, ih n1]

/-- Pointwise description of the get_plugin_panels fold. -/
theorem panelsGo_pointwise (ps : List LoadedPlugin) (n : Nat) :
    (panelsGo env ps n).1.length = ps.length ∧
    ∀ (i : Nat) (p : LoadedPlugin), ps[i]? = some p →
      ∃ p' evs entry m, (panelsGo env ps n).1[i]? = some (p', evs, entry) ∧
        n ≤ m ∧ (panelsPlugin env m p).1 = p' := by
  induction ps generalizing n with
  | nil =>
    exact ⟨rfl, by intro i p hp; simp at hp⟩
  | cons x xs ih =>
    rcases h1 : panelsPlugin env n x with ⟨p', n1, evs, entry⟩
    have hn1 : n ≤ n1 := by
      have := @panelsPlugin_counter env n x
      rw [h1] at this
      exact this
    obtain ⟨hlen, hpt⟩ := ih n1
    constructor
    · simp [panelsGo, h1, hlen]
    · intro i p hp
      cases i with
      | zero =>
        simp only [List.getElem?_cons_zero, Option.some_inj] at hp
        subst hp
        refine ⟨p', evs, entry, n, ?_, le_refl n, by rw [h1]⟩
        simp [panelsGo, h1]
      | succ j =>
        simp only [List.getElem?_cons_succ] at hp
        obtain ⟨p'', evs', entry', m, hq, hm, hc⟩ := hpt j p hp
        refine ⟨p'', evs', entry', m, ?_, le_trans hn1 hm, hc⟩
        simp only [panelsGo, h1]
        simpa using hq

end PanelsLemmas

/-! ## Claim C10: stability of the panel instance -/

/-- C10: once a record's panel_instance is set, no manager operation
replaces or clears it: connect and disconnect handling preserve it (on
their success paths), get_plugin_panels only instantiates when it is
None and keeps existing instances, stop() leaves the registry's panel
references in place (it only signals shutdown), and the preset
operations return the state unchanged. -/
theorem C10_panel_instance_stable
    (search : String → String → Bool) (env : PanelEnv) (st : ManagerState)
    (device : InputDevice) (path deviceName : String)
    (i : Nat) (p : LoadedPlugin) (pid : Nat)
    (hp : st.plugins[i]? = some p) (hpi : p.panel_instance = some pid) :
    (∀ st' evs, handleDeviceConnected search env st device = .ok (st', evs) →
      ∃ p', st'.plugins[i]? = some p' ∧ p'.panel_instance = some pid) ∧
    (∀ st' evs, handleDeviceDisconnected env st path = .ok (st', evs) →
      ∃ p', st'.plugins[i]? = some p' ∧ p'.panel_instance = some pid) ∧
    (∃ p', (getPluginPanels env st).1.plugins[i]? = some p' ∧
      p'.panel_instance = some pid) ∧
    ((stopManager env st).1.plugins = st.plugins) ∧
    ((getPluginPresetSettings env st deviceName).1 = st) ∧
    ((applyPluginPresetSettings env st deviceName).1 = st) := by
  refine ⟨?_, ?_, ?_, rfl, rfl, rfl⟩
  · intro st' evs h
    rw [handleDeviceConnected] at h
    rcases hgo : connectGo search env st.buttonCallback device st.plugins st.nextPanel
      with e | ⟨qs, n'⟩ <;> rw [hgo] at h
    · exact Except.noConfusion h
    cases Except.ok.inj h
    obtain ⟨_, _, hpt⟩ := connectGo_pointwise st.plugins st.nextPanel qs n' hgo
    obtain ⟨p', pevs, m, m', hq, _, hc⟩ := hpt i p hp
    exact ⟨p', by simp [hq], connectPlugin_panel_preserved hc hpi⟩
  · intro st' evs h
    rw [handleDeviceDisconnected] at h
    rcases hgo : disconnectGo env path st.plugins with e | qs <;> rw [hgo] at h
    · exact Except.noConfusion h
    cases Except.ok.inj h
    obtain ⟨_, hpt⟩ := disconnectGo_pointwise st.plugins qs hgo
    obtain ⟨p', pevs, hq, hc⟩ := hpt i p hp
    refine ⟨p', by simp [hq], ?_⟩
    rw [disconnectPlugin_shape hc]
    exact hpi
  · rw [getPluginPanels]
    rcases hgo : panelsGo env st.plugins st.nextPanel with ⟨qs, n'⟩
    obtain ⟨_, hpt⟩ := panelsGo_pointwise st.plugins st.nextPanel
    rw [hgo] at hpt
    obtain ⟨p', pevs, entry, m, hq, _, hc⟩ := hpt i p hp
    refine ⟨p', by simp [hq], ?_⟩
    rw [← hc, panelsPlugin_panel_preserved hpi]
    exact hpi

theorem C10_panel_instance_stable_witness :
    ∃ p', (getPluginPanels quietEnv ⟨[wheelPluginLive], true, 1, true⟩).1.plugins[0]?
        = some p' ∧ p'.panel_instance = some 0 := by
  have h := C10_panel_instance_stable reSearchIC quietEnv
    ⟨[wheelPluginLive], true, 1, true⟩ wheelDevice "/dev/input/event7" "w"
    0 wheelPluginLive 0 (by decide) (by decide)
  exact h.2.2.1

/-! ## Availability-event counting, towards claim C1 -/

theorem availCount_map_onConnect (nm : String) (pid : Nat)
    (ds : List PluginDeviceInfo) :
    availCount nm (ds.map (fun d => Ev.callOnConnect pid d)) = 0 := by
  simp only [availCount, List.countP_eq_zero]
  intro ev hev
  obtain ⟨d, _, rfl⟩ := List.mem_map.mp hev
  simp [availFor]

theorem availCount_eq_zero_of_names {nm : String} {evs : List Ev}
    (h : ∀ ev ∈ evs, availFor nm ev = true → False) :
    availCount nm evs = 0 := by
  simp only [availCount, List.countP_eq_zero]
  intro ev hev hav
  exact h ev hev hav

/-- Any availability event produced while connecting a device to one
record names that record's plugin. -/
theorem connectPlugin_avail_name {search : String → String → Bool}
    {env : PanelEnv} {cb : Bool} {device : InputDevice}
    {n : Nat} {p p' : LoadedPlugin} {n' : Nat} {evs : List Ev} {nm : String}
    (h : connectPlugin search env cb device n p = .ok (p', n', evs)) :
    ∀ ev ∈ evs, availFor nm ev = true → nm = p.name := by
  rcases hm : PluginMatcher.matches search p.rules device with _ | b
  · rw [connectPlugin_raises hm] at h
    cases h
  rcases b with _ | _
  · rw [connectPlugin_nomatch hm] at h
    cases h
    intro ev hev
    cases hev
  rcases hp : p.panel_instance with _ | pid
  · rcases hcb : cb with _ | _
    · rw [connectPlugin_nocb hm hp hcb] at h
      cases h
      intro ev hev
      cases hev
    · rw [connectPlugin_new hm hp hcb] at h
      have hq := Except.ok.inj h
      have hav := instantiatePanel_avail_name env n
        { p with connected_devices := p.connected_devices ++ [deviceInfoOf device] }
        nm
      rw [hq] at hav
      exact hav
  · rw [connectPlugin_existing hm hp] at h
    cases h
    intro ev hev hav
    split at hev
    · simp only [List.mem_singleton] at hev
      subst hev
      cases hav
    · rcases List.mem_cons.mp hev with rfl | hev
      · cases hav
      · rcases List.mem_singleton.mp hev with rfl
        cases hav

/-- The connect fold over records with other names produces no
availability events for the given name. -/
theorem connectGo_avail_zero {search : String → String → Bool}
    {env : PanelEnv} {cb : Bool} {device : InputDevice} {nm : String} :
    ∀ (ps : List LoadedPlugin) (n : Nat) (qs : List (LoadedPlugin × List Ev))
      (n' : Nat),
    connectGo search env cb device ps n = .ok (qs, n') →
    (∀ q ∈ ps, q.name ≠ nm) →
    availCount nm ((qs.map Prod.snd).flatten) = 0 := by
  intro ps
  induction ps with
  | nil =>
    intro n qs n' h _
    cases h
    rfl
  | cons x xs ih =>
    intro n qs n' h hn
    rcases h1 : connectPlugin search env cb device n x with e | ⟨p', n1, evs⟩ <;>
      simp only [connectGo, h1] at h
    · exact Except.noConfusion h
    rcases h2 : connectGo search env cb device xs n1 with e | ⟨qs', n2⟩ <;>
      simp only [h2] at h
    · exact Except.noConfusion h
    cases Except.ok.inj h
    have hx : availCount nm evs = 0 := by
      refine availCount_eq_zero_of_names ?_
      intro ev hev hav
      exact hn x (List.mem_cons_self x xs)
        ((connectPlugin_avail_name h1 ev hev hav).symm)
    have hxs := ih n1 qs' _ h2 (fun q hq => hn q (List.mem_cons_of_mem x hq))
    simp only [List.map_cons, List.flatten_cons, availCount_append, hx, hxs]

/-- When get_plugin_panels instantiates a record's panel, its outputs
are those of instantiatePanel. -/
theorem panelsPlugin_inst {env : PanelEnv} {n : Nat} {p : LoadedPlugin}
    (hd : p.connected_devices.length > 0) (hp : p.panel_instance = none) :
    (panelsPlugin env n p).2.2.1 = (instantiatePanel env n p).2.2 ∧
    (panelsPlugin env n p).1 = (instantiatePanel env n p).1 ∧
    (panelsPlugin env n p).2.1 = (instantiatePanel env n p).2.1 := by
  unfold panelsPlugin
  rw [if_pos hd, if_pos hp]
  rcases hi : instantiatePanel env n p with ⟨q, m, tr⟩
  rcases hq : q.panel_instance with _ | pid <;> simp [hq]

/-- Any availability event produced by the get_plugin_panels handling
of one record names that record's plugin. -/
theorem panelsPlugin_avail_name {env : PanelEnv} {n : Nat}
    {p : LoadedPlugin} {nm : String} :
    ∀ ev ∈ (panelsPlugin env n p).2.2.1, availFor nm ev = true → nm = p.name := by
  by_cases hd : p.connected_devices.length > 0
  · by_cases hp : p.panel_instance = none
    · rw [(panelsPlugin_inst hd hp).1]
      exact instantiatePanel_avail_name env n p nm
    · rcases hq : p.panel_instance with _ | pid
      · exact absurd hq hp
      · rw [panelsPlugin_existing hd hq]
        exact fun ev hev _ => absurd hev (List.not_mem_nil ev)
  · rw [panelsPlugin_no_devices hd]
    exact fun ev hev _ => absurd hev (List.not_mem_nil ev)

/-- The get_plugin_panels fold over records with other names produces no
availability events for the given name. -/
theorem panelsGo_avail_zero {env : PanelEnv} {nm : String} :
    ∀ (ps : List LoadedPlugin) (n : Nat),
    (∀ q ∈ ps, q.name ≠ nm) →
    availCount nm (((panelsGo env ps n).1.map (fun e => e.2.1)).flatten) = 0 := by
  intro ps
  induction ps with
  | nil =>
    intro n _
    rfl
  | cons x xs ih =>
    intro n hn
    rcases h1 : panelsPlugin env n x with ⟨p', n1, evs, entry⟩
    have hx : availCount nm evs = 0 := by
      refine availCount_eq_zero_of_names ?_
      intro ev hev hav
      have := @panelsPlugin_avail_name env n x nm
      rw [h1] at this
      exact hn x (List.mem_cons_self x xs) ((this ev hev hav).symm)
    have hxs := ih n1 (fun q hq => hn q (List.mem_cons_of_mem x hq))
    simp only [panelsGo, h1, List.map_cons, List.flatten_cons,
      availCount_append, hx, hxs]

/-- The quiet instantiation trace contains exactly one availability
event for the record's plugin, and it activates the panel when devices
are present. -/
theorem instantiate_quiet_avail {env : PanelEnv} (henv : env.ok)
    (n : Nat) (q : LoadedPlugin) :
    availCount q.name (instantiatePanel env n q).2.2 = 1 ∧
    (q.connected_devices.length > 0 →
      Ev.callActive n 1 ∈ (instantiatePanel env n q).2.2) := by
  rw [instantiatePanel_quiet henv]
  constructor
  · by_cases hd : q.connected_devices.length > 0 <;>
      simp [hd, availCount, List.countP_cons, List.countP_append, availFor,
        availCount_map_onConnect q.name n q.connected_devices]
  · intro hd
    simp [hd]

/-- One explicit run of _handle_device_connected over a registry split
around a distinguished record. -/
theorem connect_run_at {search : String → String → Bool} {env : PanelEnv}
    {st : ManagerState} {device : InputDevice}
    {l1 l2 : List LoadedPlugin} {p : LoadedPlugin}
    {qs1 : List (LoadedPlugin × List Ev)} {n1 : Nat}
    {pmid : LoadedPlugin} {n2 : Nat} {evsp : List Ev}
    {qs2 : List (LoadedPlugin × List Ev)} {n' : Nat}
    (hsplit : st.plugins = l1 ++ p :: l2)
    (hgo1 : connectGo search env st.buttonCallback device l1 st.nextPanel
      = .ok (qs1, n1))
    (hmid : connectPlugin search env st.buttonCallback device n1 p
      = .ok (pmid, n2, evsp))
    (hgo2 : connectGo search env st.buttonCallback device l2 n2
      = .ok (qs2, n')) :
    handleDeviceConnected search env st device =
      .ok ({ st with plugins := qs1.map Prod.fst ++ pmid :: qs2.map Prod.fst,
                     nextPanel := n' },
        (qs1.map Prod.snd).flatten ++ (evsp ++ (qs2.map Prod.snd).flatten)) ∧
    (qs1.map Prod.fst ++ pmid :: qs2.map Prod.fst)[l1.length]? = some pmid := by
  have hlen1 := (connectGo_pointwise l1 st.nextPanel qs1 n1 hgo1).1
  constructor
  · rw [handleDeviceConnected, hsplit, connectGo_append, hgo1]
    simp only [connectGo, hmid, hgo2]
    simp [List.map_append, List.flatten_append]
  · rw [List.getElem?_append_right (by simp [hlen1])]
    simp [hlen1]

/-- One explicit run of get_plugin_panels over a registry split around a
distinguished record. -/
theorem panels_run_at {env : PanelEnv} {st : ManagerState}
    {l1 l2 : List LoadedPlugin} {p : LoadedPlugin}
    {qs1 : List (LoadedPlugin × List Ev × Option (String × Nat))} {m1 : Nat}
    {pmid : LoadedPlugin} {m2 : Nat} {evsp : List Ev}
    {entry : Option (String × Nat)}
    {qs2 : List (LoadedPlugin × List Ev × Option (String × Nat))} {m3 : Nat}
    (hsplit : st.plugins = l1 ++ p :: l2)
    (hA : panelsGo env l1 st.nextPanel = (qs1, m1))
    (hmid : panelsPlugin env m1 p = (pmid, m2, evsp, entry))
    (hB : panelsGo env l2 m2 = (qs2, m3)) :
    (getPluginPanels env st).1.plugins
      = qs1.map Prod.fst ++ pmid :: qs2.map Prod.fst ∧
    (getPluginPanels env st).2.1
      = (qs1.map (fun e => e.2.1)).flatten ++
        (evsp ++ (qs2.map (fun e => e.2.1)).flatten) ∧
    (getPluginPanels env st).1.buttonCallback = true ∧
    (qs1.map Prod.fst ++ pmid :: qs2.map Prod.fst)[l1.length]? = some pmid := by
  have hlen1 : qs1.length = l1.length := by
    have := (@panelsGo_pointwise env l1 st.nextPanel).1
    rw [hA] at this
    exact this
  have hgo : panelsGo env st.plugins st.nextPanel
      = (qs1 ++ (pmid, evsp, entry) :: qs2, m3) := by
    rw [hsplit, panelsGo_append, hA]
    simp only [panelsGo, hmid, hB]
  refine ⟨?_, ?_, rfl, ?_⟩
  · show ((panelsGo env st.plugins st.nextPanel).1.map Prod.fst) = _
    rw [hgo]
    simp
  · show (((panelsGo env st.plugins st.nextPanel).1.map (fun e => e.2.1)).flatten) = _
    rw [hgo]
    simp
  · rw [List.getElem?_append_right (by simp [hlen1])]
    simp [hlen1]

/-! ## Claim C1: lazy single instantiation and activation -/

/-- C1: for a record in a registry of distinct plugin names, with
well-behaved plugin code and matcher rules that evaluate without error:

* connect with a callback supplied and no panel yet instantiates the
  panel, replays the (now non-empty) device set, activates it, and
  emits exactly one panel-available event for the plugin;
* connect without a callback leaves the record panel-less and emits no
  panel-available event;
* connect onto an existing panel keeps that instance and emits no
  panel-available event;
* a non-matching device changes nothing and emits no event;
* get_plugin_panels (the query that supplies the callback) instantiates
  and activates the panel of a record with devices but no panel,
  emitting exactly one panel-available event, and records the callback;
* get_plugin_panels leaves a device-less record panel-less with no
  event, and re-uses an existing panel with no further event. -/
theorem C1_panel_lifecycle (search : String → String → Bool)
    (env : PanelEnv) (henv : env.ok) (st : ManagerState)
    (device : InputDevice) (l1 l2 : List LoadedPlugin) (p : LoadedPlugin)
    (hsplit : st.plugins = l1 ++ p :: l2)
    (hnames : ∀ q ∈ l1 ++ l2, q.name ≠ p.name)
    (hparse : ∀ q ∈ st.plugins,
      PluginMatcher.matches search q.rules device ≠ none) :
    (st.buttonCallback = true → p.panel_instance = none →
      PluginMatcher.matches search p.rules device = some true →
      ∃ st' evs pid, handleDeviceConnected search env st device = .ok (st', evs) ∧
        st'.plugins[l1.length]? = some
          { p with
              connected_devices := p.connected_devices ++ [deviceInfoOf device],
              panel_instance := some pid } ∧
        Ev.callActive pid 1 ∈ evs ∧
        availCount p.name evs = 1) ∧
    (st.buttonCallback = false → p.panel_instance = none →
      ∃ st' evs, handleDeviceConnected search env st device = .ok (st', evs) ∧
        (∃ p', st'.plugins[l1.length]? = some p' ∧ p'.panel_instance = none) ∧
        availCount p.name evs = 0) ∧
    (∀ pid, p.panel_instance = some pid →
      ∃ st' evs, handleDeviceConnected search env st device = .ok (st', evs) ∧
        (∃ p', st'.plugins[l1.length]? = some p' ∧
          p'.panel_instance = some pid) ∧
        availCount p.name evs = 0) ∧
    (PluginMatcher.matches search p.rules device = some false →
      ∃ st' evs, handleDeviceConnected search env st device = .ok (st', evs) ∧
        st'.plugins[l1.length]? = some p ∧
        availCount p.name evs = 0) ∧
    (p.panel_instance = none → p.connected_devices ≠ [] →
      ∃ pid, (getPluginPanels env st).1.plugins[l1.length]? =
          some { p with panel_instance := some pid } ∧
        (getPluginPanels env st).1.buttonCallback = true ∧
        Ev.callActive pid 1 ∈ (getPluginPanels env st).2.1 ∧
        availCount p.name (getPluginPanels env st).2.1 = 1) ∧
    (p.panel_instance = none → p.connected_devices = [] →
      ∃ p', (getPluginPanels env st).1.plugins[l1.length]? = some p' ∧
        p'.panel_instance = none ∧
        availCount p.name (getPluginPanels env st).2.1 = 0) ∧
    (∀ pid, p.panel_instance = some pid →
      (getPluginPanels env st).1.plugins[l1.length]? = some p ∧
      availCount p.name (getPluginPanels env st).2.1 = 0) := by
  have hmem1 : ∀ q ∈ l1, q ∈ st.plugins := by
    intro q hq
    rw [hsplit]
    exact List.mem_append.mpr (Or.inl hq)
  have hmem2 : ∀ q ∈ l2, q ∈ st.plugins := by
    intro q hq
    rw [hsplit]
    exact List.mem_append.mpr (Or.inr (List.mem_cons_of_mem p hq))
  obtain ⟨qs1, n1, hgo1⟩ := @connectGo_total search env st.buttonCallback
    device l1 st.nextPanel (fun q hq => hparse q (hmem1 q hq))
  have hzero1 : availCount p.name ((qs1.map Prod.snd).flatten) = 0 :=
    connectGo_avail_zero l1 st.nextPanel qs1 n1 hgo1
      (fun q hq => hnames q (List.mem_append.mpr (Or.inl hq)))
  have hzero2 : ∀ (m : Nat) (qs2 : List (LoadedPlugin × List Ev)) (n' : Nat),
      connectGo search env st.buttonCallback device l2 m = .ok (qs2, n') →
      availCount p.name ((qs2.map Prod.snd).flatten) = 0 := by
    intro m qs2 n' h
    exact connectGo_avail_zero l2 m qs2 n' h
      (fun q hq => hnames q (List.mem_append.mpr (Or.inr hq)))
  refine ⟨?_, ?_, ?_, ?_, ?_, ?_, ?_⟩
  · -- connect, callback present, no panel, device matches
    intro hcb hpnone hm
    have hmid := @connectPlugin_new search env st.buttonCallback device n1 p
      hm hpnone hcb
    rw [instantiatePanel_quiet henv] at hmid
    obtain ⟨qs2, n', hgo2⟩ := @connectGo_total search env st.buttonCallback
      device l2 (n1 + 1) (fun q hq => hparse q (hmem2 q hq))
    obtain ⟨hrun, hidx⟩ := connect_run_at hsplit hgo1 hmid hgo2
    refine ⟨_, _, n1, hrun, hidx, ?_, ?_⟩
    · refine List.mem_append.mpr (Or.inr (List.mem_append.mpr (Or.inl ?_)))
      refine List.mem_cons_of_mem _ (List.mem_cons_of_mem _ ?_)
      refine List.mem_append.mpr (Or.inr ?_)
      rw [if_pos (by simp)]
      exact List.mem_cons_self _ _
    · rw [availCount_append, availCount_append, hzero1,
        hzero2 (n1 + 1) qs2 n' hgo2]
      have hmap := availCount_map_onConnect p.name n1
        (p.connected_devices ++ [deviceInfoOf device])
      rw [if_pos (by simp : (p.connected_devices ++ [deviceInfoOf device]).length > 0)]
      simp only [availCount, List.countP_cons, List.countP_append] at hmap ⊢
      simp [availFor, hmap]
  · -- connect, no callback, no panel
    intro hcb hpnone
    rcases hmb : PluginMatcher.matches search p.rules device with _ | b
    · exact absurd hmb (hparse p (by rw [hsplit]; simp))
    rcases b with _ | _
    · have hmid := @connectPlugin_nomatch search env st.buttonCallback device
        n1 p hmb
      obtain ⟨qs2, n', hgo2⟩ := @connectGo_total search env st.buttonCallback
        device l2 n1 (fun q hq => hparse q (hmem2 q hq))
      obtain ⟨hrun, hidx⟩ := connect_run_at hsplit hgo1 hmid hgo2
      refine ⟨_, _, hrun, ⟨p, hidx, hpnone⟩, ?_⟩
      rw [availCount_append, availCount_append, hzero1,
        hzero2 n1 qs2 n' hgo2]
      rfl
    · have hmid := @connectPlugin_nocb search env st.buttonCallback device
        n1 p hmb hpnone hcb
      obtain ⟨qs2, n', hgo2⟩ := @connectGo_total search env st.buttonCallback
        device l2 n1 (fun q hq => hparse q (hmem2 q hq))
      obtain ⟨hrun, hidx⟩ := connect_run_at hsplit hgo1 hmid hgo2
      refine ⟨_, _, hrun, ⟨_, hidx, hpnone⟩, ?_⟩
      rw [availCount_append, availCount_append, hzero1,
        hzero2 n1 qs2 n' hgo2]
      rfl
  · -- connect onto an existing panel
    intro pid hpsome
    rcases hmb : PluginMatcher.matches search p.rules device with _ | b
    · exact absurd hmb (hparse p (by rw [hsplit]; simp))
    rcases b with _ | _
    · have hmid := @connectPlugin_nomatch search env st.buttonCallback device
        n1 p hmb
      obtain ⟨qs2, n', hgo2⟩ := @connectGo_total search env st.buttonCallback
        device l2 n1 (fun q hq => hparse q (hmem2 q hq))
      obtain ⟨hrun, hidx⟩ := connect_run_at hsplit hgo1 hmid hgo2
      refine ⟨_, _, hrun, ⟨p, hidx, hpsome⟩, ?_⟩
      rw [availCount_append, availCount_append, hzero1,
        hzero2 n1 qs2 n' hgo2]
      rfl
    · have hmid := @connectPlugin_existing search env st.buttonCallback device
        n1 p pid hmb hpsome
      obtain ⟨qs2, n', hgo2⟩ := @connectGo_total search env st.buttonCallback
        device l2 n1 (fun q hq => hparse q (hmem2 q hq))
      obtain ⟨hrun, hidx⟩ := connect_run_at hsplit hgo1 hmid hgo2
      refine ⟨_, _, hrun, ⟨_, hidx, hpsome⟩, ?_⟩
      rw [availCount_append, availCount_append, hzero1,
        hzero2 n1 qs2 n' hgo2]
      have : availCount p.name
          (if env.onConnectRaises pid (deviceInfoOf device) then
            [Ev.callOnConnect pid (deviceInfoOf device)]
          else
            [Ev.callOnConnect pid (deviceInfoOf device),
             Ev.callActive pid 1]) = 0 := by
        split <;> rfl
      rw [this]
  · -- connect with a non-matching device
    intro hmb
    have hmid := @connectPlugin_nomatch search env st.buttonCallback device
      n1 p hmb
    obtain ⟨qs2, n', hgo2⟩ := @connectGo_total search env st.buttonCallback
      device l2 n1 (fun q hq => hparse q (hmem2 q hq))
    obtain ⟨hrun, hidx⟩ := connect_run_at hsplit hgo1 hmid hgo2
    refine ⟨_, _, hrun, hidx, ?_⟩
    rw [availCount_append, availCount_append, hzero1,
      hzero2 n1 qs2 n' hgo2]
    rfl
  · -- get_plugin_panels: devices but no panel
    intro hpnone hdev
    have hd : p.connected_devices.length > 0 :=
      List.length_pos.mpr hdev
    rcases hA : panelsGo env l1 st.nextPanel with ⟨qs1p, m1⟩
    have hmid := @panelsPlugin_new env henv m1 p hd hpnone
    rcases hB : panelsGo env l2 (m1 + 1) with ⟨qs2p, m3⟩
    obtain ⟨hplug, htrace, hcb', hidx⟩ := panels_run_at hsplit hA hmid hB
    have hzeroA : availCount p.name ((qs1p.map (fun e => e.2.1)).flatten) = 0 := by
      have := @panelsGo_avail_zero env p.name l1 st.nextPanel
        (fun q hq => hnames q (List.mem_append.mpr (Or.inl hq)))
      rw [hA] at this
      exact this
    have hzeroB : availCount p.name ((qs2p.map (fun e => e.2.1)).flatten) = 0 := by
      have := @panelsGo_avail_zero env p.name l2 (m1 + 1)
        (fun q hq => hnames q (List.mem_append.mpr (Or.inr hq)))
      rw [hB] at this
      exact this
    refine ⟨m1, ?_, hcb', ?_, ?_⟩
    · rw [hplug]
      exact hidx
    · rw [htrace]
      simp only [List.mem_append, List.mem_cons]
      right
      left
      simp [hd]
    · rw [htrace, availCount_append, availCount_append, hzeroA, hzeroB]
      simp [hd, availCount, List.countP_cons, List.countP_append, availFor,
        availCount_map_onConnect p.name m1 p.connected_devices]
  · -- get_plugin_panels: no devices, no panel
    intro hpnone hdev
    have hd : ¬ p.connected_devices.length > 0 := by simp [hdev]
    rcases hA : panelsGo env l1 st.nextPanel with ⟨qs1p, m1⟩
    have hmid := @panelsPlugin_no_devices env m1 p hd
    rcases hB : panelsGo env l2 m1 with ⟨qs2p, m3⟩
    obtain ⟨hplug, htrace, hcb', hidx⟩ := panels_run_at hsplit hA hmid hB
    have hzeroA : availCount p.name ((qs1p.map (fun e => e.2.1)).flatten) = 0 := by
      have := @panelsGo_avail_zero env p.name l1 st.nextPanel
        (fun q hq => hnames q (List.mem_append.mpr (Or.inl hq)))
      rw [hA] at this
      exact this
    have hzeroB : availCount p.name ((qs2p.map (fun e => e.2.1)).flatten) = 0 := by
      have := @panelsGo_avail_zero env p.name l2 m1
        (fun q hq => hnames q (List.mem_append.mpr (Or.inr hq)))
      rw [hB] at this
      exact this
    refine ⟨p, ?_, hpnone, ?_⟩
    · rw [hplug]
      exact hidx
    · rw [htrace, availCount_append, availCount_append, hzeroA, hzeroB]
      rfl
  · -- get_plugin_panels: existing panel
    intro pid hpsome
    rcases hA : panelsGo env l1 st.nextPanel with ⟨qs1p, m1⟩
    by_cases hd : p.connected_devices.length > 0
    · have hmid := @panelsPlugin_existing env m1 p pid hd hpsome
      rcases hB : panelsGo env l2 m1 with ⟨qs2p, m3⟩
      obtain ⟨hplug, htrace, hcb', hidx⟩ := panels_run_at hsplit hA hmid hB
      have hzeroA : availCount p.name ((qs1p.map (fun e => e.2.1)).flatten) = 0 := by
        have := @panelsGo_avail_zero env p.name l1 st.nextPanel
          (fun q hq => hnames q (List.mem_append.mpr (Or.inl hq)))
        rw [hA] at this
        exact this
      have hzeroB : availCount p.name ((qs2p.map (fun e => e.2.1)).flatten) = 0 := by
        have := @panelsGo_avail_zero env p.name l2 m1
          (fun q hq => hnames q (List.mem_append.mpr (Or.inr hq)))
        rw [hB] at this
        exact this
      refine ⟨?_, ?_⟩
      · rw [hplug]
        exact hidx
      · rw [htrace, availCount_append, availCount_append, hzeroA, hzeroB]
        rfl
    · have hmid := @panelsPlugin_no_devices env m1 p hd
      rcases hB : panelsGo env l2 m1 with ⟨qs2p, m3⟩
      obtain ⟨hplug, htrace, hcb', hidx⟩ := panels_run_at hsplit hA hmid hB
      have hzeroA : availCount p.name ((qs1p.map (fun e => e.2.1)).flatten) = 0 := by
        have := @panelsGo_avail_zero env p.name l1 st.nextPanel
          (fun q hq => hnames q (List.mem_append.mpr (Or.inl hq)))
        rw [hA] at this
        exact this
      have hzeroB : availCount p.name ((qs2p.map (fun e => e.2.1)).flatten) = 0 := by
        have := @panelsGo_avail_zero env p.name l2 m1
          (fun q hq => hnames q (List.mem_append.mpr (Or.inr hq)))
        rw [hB] at this
        exact this
      refine ⟨?_, ?_⟩
      · rw [hplug]
        exact hidx
      · rw [htrace, availCount_append, availCount_append, hzeroA, hzeroB]
        rfl

/-- The example record before any device arrives. -/
def wheelPluginFresh : LoadedPlugin := ⟨"wheel", none, [wheelRule], [], none⟩

theorem C1_panel_lifecycle_witness :
    ∃ (st' : ManagerState) (evs : List Ev) (pid : Nat),
      handleDeviceConnected reSearchIC quietEnv
        ⟨[wheelPluginFresh], true, 0, true⟩ wheelDevice = .ok (st', evs) ∧
      st'.plugins[0]? = some ⟨"wheel", none, [wheelRule], [wheelInfo], some pid⟩ ∧
      Ev.callActive pid 1 ∈ evs ∧
      availCount "wheel" evs = 1 := by
  have h := C1_panel_lifecycle reSearchIC quietEnv quietEnv_ok
    ⟨[wheelPluginFresh], true, 0, true⟩ wheelDevice
    [] [] wheelPluginFresh rfl (by simp)
    (by
      intro q hq
      rcases List.mem_singleton.mp hq with rfl
      decide)
  obtain ⟨st', evs, pid, hrun, hidx, hact, hcount⟩ := h.1 rfl rfl (by decide)
  exact ⟨st', evs, pid, hrun, hidx, hact, hcount⟩

/-! ## Infrastructure for claim C6 -/

/-- Is this a device-connected notification to the given panel? -/
def onConnectTo (pid : Nat) : Ev → Bool
  | .callOnConnect k _ => k = pid
  | _ => false

theorem onConnectTo_evPanel {pid : Nat} {ev : Ev}
    (h : onConnectTo pid ev = true) : evPanel ev = some pid := by
  cases ev <;> simp [onConnectTo] at h <;> simp [evPanel, h]

/-- Each record surviving a disconnect is one of the originals with the
matching devices filtered out. -/
theorem disconnectGo_mem {env : PanelEnv} {path : String} :
    ∀ {ps : List LoadedPlugin} {qs : List (LoadedPlugin × List Ev)},
    disconnectGo env path ps = .ok qs →
    ∀ q' ∈ qs.map Prod.fst, ∃ q ∈ ps, q' = { q with
      connected_devices := q.connected_devices.filter (fun d => d.path ≠ path) } := by
  intro ps
  induction ps with
  | nil =>
    intro qs h q' hq'
    cases h
    simp at hq'
  | cons x xs ih =>
    intro qs h q' hq'
    rcases h1 : disconnectPlugin env path x with e | ⟨p', evs⟩ <;>
      simp only [disconnectGo, h1] at h
    · exact Except.noConfusion h
    rcases h2 : disconnectGo env path xs with e | qs' <;>
      simp only [h2] at h
    · exact Except.noConfusion h
    cases Except.ok.inj h
    simp only [List.map_cons, List.mem_cons] at hq'
    rcases hq' with rfl | hq'
    · exact ⟨x, List.mem_cons_self x xs, disconnectPlugin_shape h1⟩
    · obtain ⟨q, hmem, hq⟩ := ih h2 q' hq'
      exact ⟨q, List.mem_cons_of_mem x hmem, hq⟩

/-- Every event emitted while connecting one record refers either to the
record's pre-existing panel or to a freshly allocated identity. -/
theorem connectPlugin_ids {search : String → String → Bool}
    {env : PanelEnv} {cb : Bool} {device : InputDevice}
    {n : Nat} {q q' : LoadedPlugin} {n' : Nat} {evs : List Ev}
    (h : connectPlugin search env cb device n q = .ok (q', n', evs)) :
    ∀ ev ∈ evs, ∀ k, evPanel ev = some k →
      q.panel_instance = some k ∨ n ≤ k := by
  rcases hm : PluginMatcher.matches search q.rules device with _ | b
  · rw [connectPlugin_raises hm] at h
    cases h
  rcases b with _ | _
  · rw [connectPlugin_nomatch hm] at h
    cases h
    intro ev hev
    cases hev
  rcases hp : q.panel_instance with _ | pid
  · rcases hcb : cb with _ | _
    · rw [connectPlugin_nocb hm hp hcb] at h
      cases h
      intro ev hev
      cases hev
    · rw [connectPlugin_new hm hp hcb] at h
      have hq := Except.ok.inj h
      have hids := instantiatePanel_ids env n
        { q with connected_devices := q.connected_devices ++ [deviceInfoOf device] }
      rw [hq] at hids
      intro ev hev k hk
      exact Or.inr (le_of_eq (hids ev hev k hk).symm)
  · rw [connectPlugin_existing hm hp] at h
    cases h
    intro ev hev k hk
    left
    split at hev
    · simp only [List.mem_singleton] at hev
      subst hev
      simp [evPanel] at hk
      simp [hp, hk]
    · rcases List.mem_cons.mp hev with rfl | hev
      · simp [evPanel] at hk
        simp [hp, hk]
      · rcases List.mem_singleton.mp hev with rfl
        simp [evPanel] at hk
        simp [hp, hk]

/-- The connect fold emits no device-connected notification toward a
panel identity that no processed record owns and that is older than the
counter. -/
theorem connectGo_filter_zero {search : String → String → Bool}
    {env : PanelEnv} {cb : Bool} {device : InputDevice} {pid : Nat} :
    ∀ (ps : List LoadedPlugin) (n : Nat)
      (qs : List (LoadedPlugin × List Ev)) (n' : Nat),
    connectGo search env cb device ps n = .ok (qs, n') →
    (∀ q ∈ ps, q.panel_instance ≠ some pid) → pid < n →
    ((qs.map Prod.snd).flatten).filter (onConnectTo pid) = [] := by
  intro ps
  induction ps with
  | nil =>
    intro n qs n' h _ _
    cases h
    rfl
  | cons x xs ih =>
    intro n qs n' h hown hlt
    rcases h1 : connectPlugin search env cb device n x with e | ⟨p', n1, evs⟩ <;>
      simp only [connectGo, h1] at h
    · exact Except.noConfusion h
    rcases h2 : connectGo search env cb device xs n1 with e | ⟨qs', n2⟩ <;>
      simp only [h2] at h
    · exact Except.noConfusion h
    cases Except.ok.inj h
    have hx : evs.filter (onConnectTo pid) = [] := by
      rw [List.filter_eq_nil_iff]
      intro ev hev hto
      rcases connectPlugin_ids h1 ev hev pid (onConnectTo_evPanel hto)
        with hk | hk
      · exact hown x (List.mem_cons_self x xs) hk
      · omega
    have hxs := ih n1 qs' _ h2
      (fun q hq => hown q (List.mem_cons_of_mem x hq))
      (lt_of_lt_of_le hlt (connectPlugin_mono h1))
    simp only [List.map_cons, List.flatten_cons, List.filter_append, hx, hxs,
      List.nil_append]

/-- One explicit run of _handle_device_disconnected over a registry
split around a distinguished record. -/
theorem disconnect_run_at {env : PanelEnv} {st : ManagerState} {path : String}
    {l1 l2 : List LoadedPlugin} {p : LoadedPlugin}
    {qs1 qs2 : List (LoadedPlugin × List Ev)}
    {pmid : LoadedPlugin} {evsp : List Ev}
    (hsplit : st.plugins = l1 ++ p :: l2)
    (hgo1 : disconnectGo env path l1 = .ok qs1)
    (hmid : disconnectPlugin env path p = .ok (pmid, evsp))
    (hgo2 : disconnectGo env path l2 = .ok qs2) :
    handleDeviceDisconnected env st path =
      .ok ({ st with plugins := qs1.map Prod.fst ++ pmid :: qs2.map Prod.fst },
        (qs1.map Prod.snd).flatten ++ (evsp ++ (qs2.map Prod.snd).flatten)) ∧
    (qs1.map Prod.fst ++ pmid :: qs2.map Prod.fst)[l1.length]? = some pmid := by
  have hlen1 := (disconnectGo_pointwise l1 qs1 hgo1).1
  constructor
  · rw [handleDeviceDisconnected, hsplit, disconnectGo_append, hgo1]
    simp only [disconnectGo, hmid, hgo2]
    simp [List.map_append, List.flatten_append]
  · rw [List.getElem?_append_right (by simp [hlen1])]
    simp [hlen1]

/-! ## Claim C6: the panel survives the disconnect of its last device -/

/-- C6: with well-behaved plugin code, disconnecting the only device of
a record that has a panel removes the device, notifies the panel and
flags it inactive with active(-1), but keeps panel_instance; a later
connect of a matching device reuses that same panel instance and
forwards exactly one device-connected notification to it — the new
device, with no replay of past devices. -/
theorem C6_panel_reuse (search : String → String → Bool)
    (env : PanelEnv) (henv : env.ok) (st : ManagerState)
    (d : InputDevice) (path : String)
    (l1 l2 : List LoadedPlugin) (p : LoadedPlugin) (pid : Nat)
    (d0 : PluginDeviceInfo)
    (hsplit : st.plugins = l1 ++ p :: l2)
    (hp : p.panel_instance = some pid)
    (hd : p.connected_devices = [d0])
    (hpath : d0.path = path)
    (hfresh : pid < st.nextPanel)
    (hothers : ∀ q ∈ l1 ++ l2, q.panel_instance ≠ some pid)
    (hparse : ∀ q ∈ st.plugins,
      PluginMatcher.matches search q.rules d ≠ none)
    (hm2 : PluginMatcher.matches search p.rules d = some true) :
    ∃ st1 evs1, handleDeviceDisconnected env st path = .ok (st1, evs1) ∧
      st1.plugins[l1.length]? = some { p with connected_devices := [] } ∧
      Ev.callOnDisconnect pid d0 ∈ evs1 ∧
      Ev.callActive pid (-1) ∈ evs1 ∧
      ∃ st2 evs2, handleDeviceConnected search env st1 d = .ok (st2, evs2) ∧
        st2.plugins[l1.length]? =
          some { p with connected_devices := [deviceInfoOf d] } ∧
        evs2.filter (onConnectTo pid) =
          [Ev.callOnConnect pid (deviceInfoOf d)] := by
  have hactq : ∀ pid' : Nat, env.activeRaises pid' (-1) = false :=
    fun pid' => henv.2.1 pid' (-1)
  obtain ⟨qs1, hgo1⟩ := @disconnectGo_total env path l1
    (fun q _ pid' _ => hactq pid')
  have hmid := @disconnectPlugin_last env path p pid d0
    (hactq pid) hp hd hpath
  obtain ⟨qs2, hgo2⟩ := @disconnectGo_total env path l2
    (fun q _ pid' _ => hactq pid')
  obtain ⟨hrun1, hidx1⟩ := disconnect_run_at hsplit hgo1 hmid hgo2
  refine ⟨_, _, hrun1, hidx1, ?_, ?_, ?_⟩
  · exact List.mem_append.mpr (Or.inr (List.mem_append.mpr
      (Or.inl (List.mem_cons_self _ _))))
  · exact List.mem_append.mpr (Or.inr (List.mem_append.mpr
      (Or.inl (List.mem_cons_of_mem _ (List.mem_cons_self _ _)))))
  · -- the reconnect phase
    have hmemL1 : ∀ q ∈ qs1.map Prod.fst, ∃ q0 ∈ l1, q = { q0 with
        connected_devices :=
          q0.connected_devices.filter (fun e => e.path ≠ path) } :=
      disconnectGo_mem hgo1
    have hmemL2 : ∀ q ∈ qs2.map Prod.fst, ∃ q0 ∈ l2, q = { q0 with
        connected_devices :=
          q0.connected_devices.filter (fun e => e.path ≠ path) } :=
      disconnectGo_mem hgo2
    have hparse1 : ∀ q ∈ qs1.map Prod.fst ++
        ({ p with connected_devices := ([] : List PluginDeviceInfo) } ::
          qs2.map Prod.fst),
        PluginMatcher.matches search q.rules d ≠ none := by
      intro q hq
      rcases List.mem_append.mp hq with hq | hq
      · obtain ⟨q0, hq0, rfl⟩ := hmemL1 q hq
        exact hparse q0 (by rw [hsplit]; exact List.mem_append.mpr (Or.inl hq0))
      · rcases List.mem_cons.mp hq with rfl | hq
        · exact hparse p (by rw [hsplit]; simp)
        · obtain ⟨q0, hq0, rfl⟩ := hmemL2 q hq
          exact hparse q0 (by
            rw [hsplit]
            exact List.mem_append.mpr (Or.inr (List.mem_cons_of_mem p hq0)))
    obtain ⟨rs1, m1, hcgo1⟩ := @connectGo_total search env st.buttonCallback d
      (qs1.map Prod.fst) st.nextPanel
      (fun q hq => hparse1 q (List.mem_append.mpr (Or.inl hq)))
    have hcmid := @connectPlugin_existing search env st.buttonCallback d m1
      { p with connected_devices := ([] : List PluginDeviceInfo) } pid hm2 hp
    simp only [henv.2.2.1, Bool.false_eq_true, if_false] at hcmid
    obtain ⟨rs2, m2, hcgo2⟩ := @connectGo_total search env st.buttonCallback d
      (qs2.map Prod.fst) m1
      (fun q hq => hparse1 q
        (List.mem_append.mpr (Or.inr (List.mem_cons_of_mem _ hq))))
    have hsplit1 : ({ st with plugins := qs1.map Prod.fst ++ ({ p with connected_devices := ([] : List PluginDeviceInfo) } :: qs2.map Prod.fst) } : ManagerState).plugins = qs1.map Prod.fst ++ ({ p with connected_devices := ([] : List PluginDeviceInfo) } :: qs2.map Prod.fst) := rfl
    obtain ⟨hrun2, hidx2⟩ := connect_run_at hsplit1 hcgo1 hcmid hcgo2
    have hlen1d : (qs1.map Prod.fst).length = l1.length := by
      simp [(disconnectGo_pointwise l1 qs1 hgo1).1]
    refine ⟨_, _, hrun2, ?_, ?_⟩
    · rw [← hlen1d]
      exact hidx2
    have hm1le : st.nextPanel ≤ m1 :=
      (connectGo_pointwise (qs1.map Prod.fst) st.nextPanel rs1 m1 hcgo1).2.1
    have hf1 : ((rs1.map Prod.snd).flatten).filter (onConnectTo pid) = [] := by
      refine connectGo_filter_zero (qs1.map Prod.fst) st.nextPanel rs1 m1
        hcgo1 ?_ hfresh
      intro q hq
      obtain ⟨q0, hq0, rfl⟩ := hmemL1 q hq
      exact hothers q0 (List.mem_append.mpr (Or.inl hq0))
    have hf2 : ((rs2.map Prod.snd).flatten).filter (onConnectTo pid) = [] := by
      refine connectGo_filter_zero (qs2.map Prod.fst) m1 rs2 m2
        hcgo2 ?_ (lt_of_lt_of_le hfresh hm1le)
      intro q hq
      obtain ⟨q0, hq0, rfl⟩ := hmemL2 q hq
      exact hothers q0 (List.mem_append.mpr (Or.inr hq0))
    rw [List.filter_append, List.filter_append, hf1, hf2]
    simp [onConnectTo]

theorem C6_panel_reuse_witness :
    ∃ st1 evs1,
      handleDeviceDisconnected quietEnv ⟨[wheelPluginLive], true, 1, true⟩
        "/dev/input/event7" = .ok (st1, evs1) ∧
      st1.plugins[0]? = some ⟨"wheel", none, [wheelRule], [], some 0⟩ ∧
      Ev.callActive 0 (-1) ∈ evs1 ∧
      ∃ st2 evs2, handleDeviceConnected reSearchIC quietEnv st1 wheelDevice
          = .ok (st2, evs2) ∧
        st2.plugins[0]? = some ⟨"wheel", none, [wheelRule], [wheelInfo], some 0⟩ ∧
        evs2.filter (onConnectTo 0) = [Ev.callOnConnect 0 wheelInfo] := by
  obtain ⟨st1, evs1, hrun1, hidx1, hdis, hact, st2, evs2, hrun2, hidx2, hfil⟩ :=
    C6_panel_reuse reSearchIC quietEnv quietEnv_ok
      ⟨[wheelPluginLive], true, 1, true⟩ wheelDevice "/dev/input/event7"
      [] [] wheelPluginLive 0 wheelInfo rfl rfl rfl rfl
      (by decide) (by simp)
      (by
        intro q hq
        rcases List.mem_singleton.mp hq with rfl
        decide)
      (by decide)
  exact ⟨st1, evs1, hrun1, hidx1, hact, st2, evs2, hrun2, hidx2, hfil⟩

end Foxblat
